import Mathlib

/-!
# CottonCandy: the forwarding engine and its messages

A shallow embedding of `ForwardEngine.cpp`, `ForwardEngine.h` and
`MessageProcessor.h`.

* `byte` and `uint8_t` values are natural numbers, reduced `% 256` where the code
  can overflow; `unsigned long` values are natural numbers reduced `% 2 ^ 32`.
* `int` signal strengths are integers.
* The radio, the millisecond clock, the random generator and the user callbacks are
  the environment `Env`: a clock, a script of receive outcomes, a list of raw
  random values, a list of callback results, and the trace of what the node did.
-/

namespace CottonCandy

/-! ## Constants of `ForwardEngine.h` and `MessageProcessor.h` -/

def INIT : Nat := 0
def JOINED : Nat := 4
def GATEWAY_ADDRESS_MASK : Nat := 0x80
def DISCOVERY_TIMEOUT : Nat := 10000
def RECEIVE_TIMEOUT : Nat := 1000
def RSSI_THRESHOLD : Int := -100
def MAX_NUM_CHILDREN : Nat := 5
def MIN_BACKOFF_TIME : Nat := 100
def MAX_JOIN_ACK_BACKOFF_TIME : Nat := 3000
def MAX_BACKOFF_TIME_FOR_ONE_CHILD : Nat := 3000
def DEFAULT_NEXT_GATEWAY_REQ_TIME : Nat := 86400000

def MESSAGE_JOIN : Nat := 1
def MESSAGE_JOIN_ACK : Nat := 2
def MESSAGE_JOIN_CFM : Nat := 3
def MESSAGE_CHECK_ALIVE : Nat := 4
def MESSAGE_REPLY_ALIVE : Nat := 5
def MESSAGE_GATEWAY_REQ : Nat := 6
def MESSAGE_NODE_REPLY : Nat := 7
/-- A node address, `byte addr[2]`: the two bytes in memory order. -/
structure Addr where
  b0 : Nat
  b1 : Nat
deriving DecidableEq, Repr

/-- The fields that the subclasses of `GenericMessage` add (`MessageProcessor.h`). -/
inductive Body where
  | join
  | joinAck (hopsToGateway : Nat)
  | joinCFM (depth : Nat)
  | checkAlive (depth : Nat)
  | replyAlive
  | gatewayRequest (seqNum nextReqTime childBackoffTime : Nat)
  | nodeReply (seqNum dataLength : Nat) (data : List Nat)
deriving DecidableEq, Repr

/-- The class `GenericMessage` with its subclass fields; `type` is `msgType` below. -/
structure GenericMessage where
  srcAddr : Addr
  destAddr : Addr
  rssi : Int
  body : Body
deriving DecidableEq, Repr

/-- The `type` byte that each constructor passes to `GenericMessage`. -/
def GenericMessage.msgType (m : GenericMessage) : Nat :=
  match m.body with
  | .join => MESSAGE_JOIN
  | .joinAck _ => MESSAGE_JOIN_ACK
  | .joinCFM _ => MESSAGE_JOIN_CFM
  | .checkAlive _ => MESSAGE_CHECK_ALIVE
  | .replyAlive => MESSAGE_REPLY_ALIVE
  | .gatewayRequest _ _ _ => MESSAGE_GATEWAY_REQ
  | .nodeReply _ _ _ => MESSAGE_NODE_REPLY

/-- The record `struct ParentInfo`. -/
structure ParentInfo where
  lastAliveTime : Nat
  hopsToGateway : Nat
  parentAddr : Addr
  Rssi : Int
  requireChecking : Bool
deriving DecidableEq, Repr

/-! ## `ForwardEngine::join`: the best-candidate update -/

/-- The three assignments of `join()` that make the sender of an ack the candidate:
`memcpy(parentAddr, nodeAddr, 2); hopsToGateway = newHopsToGateway; Rssi = msg->rssi`. -/
def takeCandidate (best : ParentInfo) (nodeAddr : Addr) (newHopsToGateway : Nat)
    (rssi : Int) : ParentInfo :=
  { best with parentAddr := nodeAddr, hopsToGateway := newHopsToGateway, Rssi := rssi }

/-- The `switch (msg->type)` of the discovery loop of `join()`: `case MESSAGE_JOIN_ACK`
compares the ack with the running candidate, `default` discards the message. -/
def joinSwitch (bestParentCandidate : ParentInfo) (msg : GenericMessage) : ParentInfo :=
  match msg.body with
  | .joinAck newHopsToGateway =>
    if newHopsToGateway ≠ 255 then
      if bestParentCandidate.hopsToGateway ≠ 255 then
        if msg.rssi ≥ RSSI_THRESHOLD then
          if newHopsToGateway < bestParentCandidate.hopsToGateway ∨
              (newHopsToGateway = bestParentCandidate.hopsToGateway ∧
                msg.rssi > bestParentCandidate.Rssi) then
            takeCandidate bestParentCandidate msg.srcAddr newHopsToGateway msg.rssi
          else bestParentCandidate
        else bestParentCandidate
      else
        takeCandidate bestParentCandidate msg.srcAddr newHopsToGateway msg.rssi
    else bestParentCandidate
  | _ => bestParentCandidate

/-- The candidate that the discovery loop holds after the messages `msgs`, in order. -/
def foldAcks (seed : ParentInfo) (msgs : List GenericMessage) : ParentInfo :=
  msgs.foldl joinSwitch seed

/-! ## The node and its environment -/

/-- The duty modes `SleepMode::...` that `run()` and `setSleepMode` compare against. -/
inductive SleepMode where
  | NO_SLEEP
  | SLEEP_TRANSCEIVER_INTERRUPT
  | SLEEP_RTC_INTERRUPT
deriving DecidableEq, Repr

/-- The data members of `class ForwardEngine` (`myDriver` is part of `Env`), with
the three variables `nextGatewayReqTime`, `receivingPeriod`, `firstGatewayContact`
that `run()` keeps between iterations. `onRecvRequest` and `onRecvResponse` record
whether the callback pointer is set. -/
structure ForwardEngine where
  myAddr : Addr
  myParent : ParentInfo
  hopsToGateway : Nat
  state : Nat
  numChildren : Nat
  childrenList : List Addr
  checkAliveInterval : Nat
  gatewayReqTime : Nat
  lastReqTime : Nat
  seqNum : Nat
  maxBackoffTime : Nat
  onRecvRequest : Bool
  onRecvResponse : Bool
  sleepMode : SleepMode
  nextGatewayReqTime : Nat
  receivingPeriod : Nat
  firstGatewayContact : Bool
deriving DecidableEq, Repr

/-- What the node does to the outside world, in program order. -/
inductive Action where
  | send (msg : GenericMessage) (destAddr : Addr)
  | sleepForMillis (ms : Nat)
  | onRecvRequest
  | onRecvResponse (data : List Nat) (dataLength : Nat) (srcAddr : Addr)
  | writeAllowReceiving (value : Bool)
  | noInterrupts
  | interrupts
  | attachInterrupt
  | rtcAlarm
  | rtcSquareWaveNone
  | rtcSetAlarmMinutes (time : Nat)
  | checkAllowReceiving (value : Bool)
  | powerDownMCU
  | enterSleepMode
  | rtcSetAlarmDate (time : Nat)
  | sleepCpu
  | rtcISR
  | enterTransMode
deriving DecidableEq, Repr

/-- One outcome of `receiveMessage`: the time the call took and the message it
returned (`none` for `nullptr`). -/
structure RecvEvent where
  elapsed : Nat
  msg : Option GenericMessage
deriving DecidableEq, Repr

/-- The world around the node: the millisecond clock, the RTC reading, the
outcomes of the coming `receiveMessage` calls (silence once the list is empty), the
coming raw values of the random generator, the coming results of the
`onRecvRequest` callback, the content of an unset `dataLength` and of a fresh
`nodeData` buffer, the width of `int`, the flag `allowReceiving`, the interrupt
mask, and the trace of the actions so far. -/
structure Env where
  now : Nat
  rtcNow : Nat
  inbox : List RecvEvent
  randoms : List Nat
  requestData : List (List Nat × Nat)
  uninitData : List Nat
  uninitLength : Nat
  intBits : Nat
  allowReceiving : Bool
  interruptsEnabled : Bool
  trace : List Action
deriving DecidableEq, Repr

/-- Modelled from the spec: the destination BROADCAST of the radio transport; the
constant `BROADCAST_ADDR` is declared in `DeviceDriver.h`, which is not among the
sources. No theorem depends on its value. -/
def BROADCAST_ADDR : Addr := ⟨0xFF, 0xFF⟩

/-- Subtraction of two `unsigned long` values. -/
def sub32 (a b : Nat) : Nat := (a % 2 ^ 32 + (2 ^ 32 - b % 2 ^ 32)) % 2 ^ 32

/-- Addition of two `unsigned long` values. -/
def add32 (a b : Nat) : Nat := (a + b) % 2 ^ 32

/-- An `unsigned long` read as a `long`. -/
def toLong (x : Nat) : Int :=
  if x % 2 ^ 32 < 2 ^ 31 then ((x % 2 ^ 32 : Nat) : Int) else ((x % 2 ^ 32 : Nat) : Int) - 2 ^ 32

/-- A `long` or `int` stored in an `unsigned long`. -/
def toULong (x : Int) : Nat := (x % 2 ^ 32).toNat

/-- A product computed in a signed `int` of `bits` bits, wrapping around. -/
def wrapInt (bits : Nat) (x : Int) : Int :=
  (x + 2 ^ (bits - 1)) % 2 ^ bits - 2 ^ (bits - 1)

/-- The test `addr[0] & GATEWAY_ADDRESS_MASK`. -/
def isGateway (addr : Addr) : Bool := decide (addr.b0 &&& GATEWAY_ADDRESS_MASK ≠ 0)

/-- A message as its constructor leaves it: `rssi` is assigned on reception only and
is 0 in a message the node builds. -/
def mkMessage (srcAddr destAddr : Addr) (body : Body) : GenericMessage :=
  { srcAddr := srcAddr, destAddr := destAddr, rssi := 0, body := body }

/-- Modelled from the spec: the monotonic millisecond counter, read by
`getTimeMillis()` of `Utilities.h`, which is not among the sources. -/
def getTimeMillis (env : Env) : Nat := env.now

/-- Modelled from the spec: the blocking back-off sleep `sleepForMillis(ms)` of
`Utilities.h`, which is not among the sources: the clock advances by `ms` and the
sleep is recorded. -/
def sleepForMillis (ms : Nat) (env : Env) : Env :=
  { env with now := add32 env.now ms, trace := env.trace ++ [.sleepForMillis ms] }

/-- Modelled from the spec: `send(frame, destinationAddress|BROADCAST)` of the radio
transport, reached through `msg.send(myDriver, destAddr)`; the transmission is
recorded with the message and its destination. -/
def send (msg : GenericMessage) (destAddr : Addr) (env : Env) : Env :=
  { env with trace := env.trace ++ [.send msg destAddr] }

/-- Modelled from the spec: `receive(timeout) → frame | none` of the radio
transport, at the level of decoded messages; `receiveMessage` is declared in
`MessageProcessor.h` and its body is not among the sources. The next outcome of the
script is consumed; with nothing left the call returns `nullptr` after `timeout`. -/
def receiveMessage (env : Env) (timeout : Nat) : Option GenericMessage × Env :=
  match env.inbox with
  | [] => (none, { env with now := add32 env.now timeout })
  | ev :: rest => (ev.msg, { env with now := add32 env.now ev.elapsed, inbox := rest })

/-- Modelled from the spec: the Arduino function `random(min, max)` on `long`
arguments, which returns `min` when `min >= max` and otherwise `min` plus the next
raw value of the generator modulo `max - min`, a value in `[min, max)`. -/
def random (howsmall howbig : Int) (env : Env) : Int × Env :=
  if howsmall ≥ howbig then (howsmall, env)
  else
    match env.randoms with
    | [] => (howsmall, env)
    | r :: rest => ((r : Int) % (howbig - howsmall) + howsmall, { env with randoms := rest })

/-- The statement `if (onRecvRequest) onRecvRequest(&nodeData, &dataLength);` after
`nodeData = new byte[64]; byte dataLength;`: the payload and length the callback
gives, or the indeterminate content when no callback is set. -/
def callRecvRequest (fe : ForwardEngine) (env : Env) : List Nat × Nat × Env :=
  if fe.onRecvRequest then
    match env.requestData with
    | [] => ([], 0, { env with trace := env.trace ++ [.onRecvRequest] })
    | (d, n) :: rest =>
      (d, n % 256, { env with requestData := rest, trace := env.trace ++ [.onRecvRequest] })
  else (env.uninitData, env.uninitLength % 256, env)

/-- The computation `numChildren * MAX_BACKOFF_TIME_FOR_ONE_CHILD` stored in an
`unsigned long` and capped: `if (childBackoffTime > gatewayReqTime) childBackoffTime =
gatewayReqTime;`. The product is an `int` product. -/
def cappedChildBackoff (intBits numChildren gatewayReqTime : Nat) : Nat :=
  let childBackoffTime :=
    toULong (wrapInt intBits ((numChildren : Int) * (MAX_BACKOFF_TIME_FOR_ONE_CHILD : Int)))
  if childBackoffTime > gatewayReqTime then gatewayReqTime else childBackoffTime

/-! ## `ForwardEngine::join` and the joining loop of `ForwardEngine::run` -/

/-- The discovery loop of `join()`:
`while ((unsigned long)(getTimeMillis() - previousTime) < DISCOVERY_TIMEOUT)` with
one `receiveMessage(myDriver, RECEIVE_TIMEOUT)` per iteration. `fuel` bounds the
number of iterations; `none` means the bound was reached with the window open. -/
def joinLoop : Nat → Nat → ParentInfo → Env → Option (ParentInfo × Env)
  | 0, _, _, _ => none
  | fuel + 1, previousTime, bestParentCandidate, env =>
    if sub32 (getTimeMillis env) previousTime < DISCOVERY_TIMEOUT then
      match receiveMessage env RECEIVE_TIMEOUT with
      | (none, env1) => joinLoop fuel previousTime bestParentCandidate env1
      | (some msg, env1) => joinLoop fuel previousTime (joinSwitch bestParentCandidate msg) env1
    else some (bestParentCandidate, env)

/-- The function `bool ForwardEngine::join()`; the result is the returned value, the
node and the environment afterwards. -/
def join (fuel : Nat) (fe : ForwardEngine) (env : Env) : Option (Bool × ForwardEngine × Env) :=
  if fe.state ≠ INIT then some (true, fe, env)
  else
    let beacon := mkMessage fe.myAddr BROADCAST_ADDR .join
    let env1 := send beacon BROADCAST_ADDR env
    let previousTime := getTimeMillis env1
    match joinLoop fuel previousTime fe.myParent env1 with
    | none => none
    | some (bestParentCandidate, env2) =>
      if bestParentCandidate.parentAddr.b0 ≠ fe.myAddr.b0 ∨
          bestParentCandidate.parentAddr.b1 ≠ fe.myAddr.b1 then
        let fe1 := { fe with myParent := bestParentCandidate,
                             hopsToGateway := (bestParentCandidate.hopsToGateway + 1) % 256 }
        let cfm := mkMessage fe1.myAddr fe1.myParent.parentAddr (.joinCFM fe1.numChildren)
        let env3 := send cfm fe1.myParent.parentAddr env2
        let fe2 := { fe1 with myParent := { fe1.myParent with
                                lastAliveTime := getTimeMillis env3, requireChecking := false } }
        some (true, fe2, env3)
      else some (false, fe, env2)

/-- The loop `while (state == INIT)` of `run()`: `join()`, then `state = JOINED` or
`sleepForMillis(5000)`. `attempts` bounds the number of iterations. -/
def runJoinLoop : Nat → Nat → ForwardEngine → Env → Option (ForwardEngine × Env)
  | 0, _, _, _ => none
  | attempts + 1, fuel, fe, env =>
    if fe.state = INIT then
      match join fuel fe env with
      | none => none
      | some (true, fe1, env1) => runJoinLoop attempts fuel { fe1 with state := JOINED } env1
      | some (false, fe1, env1) => runJoinLoop attempts fuel fe1 (sleepForMillis 5000 env1)
    else some (fe, env)

/-- The start of `run()` up to `lastReqTime = getTimeMillis()`: a gateway is Joined
with cost 0, any other node joins first. -/
def runStart (attempts fuel : Nat) (fe : ForwardEngine) (env : Env) :
    Option (ForwardEngine × Env) :=
  if isGateway fe.myAddr then
    let fe1 := { fe with state := JOINED, hopsToGateway := 0 }
    some ({ fe1 with lastReqTime := getTimeMillis env }, env)
  else
    match runJoinLoop attempts fuel { fe with state := INIT, hopsToGateway := 255 } env with
    | none => none
    | some (fe1, env1) => some ({ fe1 with lastReqTime := getTimeMillis env1 }, env1)

/-! ## `ForwardEngine::run`: the handling of one received message -/

/-- The scan `while (iter != nullptr)` of `case MESSAGE_JOIN_CFM`: whether a child
with the bytes of `srcAddr` is in the list. -/
def findChild : List Addr → Addr → Bool
  | [], _ => false
  | c :: rest, srcAddr =>
    if c.b0 = srcAddr.b0 ∧ c.b1 = srcAddr.b1 then true else findChild rest srcAddr

/-- The block `if (sleepMode == SleepMode::SLEEP_RTC_INTERRUPT)` that ends
`case MESSAGE_GATEWAY_REQ`: the next expected request, the receiving period, and on
the first contact the alarm for its end. The test `gatewayReqTime <= 1200e3` is the
comparison of integers (1200000 is exact and the conversion is monotone). -/
def scheduleReceiving (receivingPeriodStart : Nat) (fe : ForwardEngine) (env : Env) :
    ForwardEngine × Env :=
  let nextGatewayReqTime := add32 receivingPeriodStart (fe.gatewayReqTime / 1000)
  let receivingPeriodEnd :=
    if fe.gatewayReqTime ≤ 1200000 then add32 receivingPeriodStart (fe.gatewayReqTime / 1000 / 2)
    else add32 receivingPeriodStart 600
  let fe1 := { fe with nextGatewayReqTime := nextGatewayReqTime,
                       receivingPeriod := sub32 receivingPeriodEnd receivingPeriodStart }
  if !fe1.firstGatewayContact then
    ({ fe1 with firstGatewayContact := true },
     { env with allowReceiving := true, interruptsEnabled := false,
                trace := env.trace ++ [.writeAllowReceiving true, .rtcAlarm, .rtcSquareWaveNone,
                  .rtcSetAlarmMinutes receivingPeriodEnd, .noInterrupts, .attachInterrupt] })
  else (fe1, env)

/-- The statements of `case MESSAGE_GATEWAY_REQ` from `unsigned long backoff =
random(MIN_BACKOFF_TIME, maxBackoffTime)` to `nReply.send(myDriver,
myParent.parentAddr)`: the back-off sleep, the callback, the NodeReply to the parent.
The back-off is returned with the environment. -/
def replyToParent (fe : ForwardEngine) (env : Env) (seqNum : Nat) : Nat × Env :=
  let (r, env1) := random (MIN_BACKOFF_TIME : Int) (toLong fe.maxBackoffTime) env
  let backoff := toULong r
  let env2 := sleepForMillis backoff env1
  let (nodeData, dataLength, env3) := callRecvRequest fe env2
  let nReply := mkMessage fe.myAddr fe.myParent.parentAddr (.nodeReply seqNum dataLength nodeData)
  (backoff, send nReply fe.myParent.parentAddr env3)

/-- The block `if (numChildren > 0)` of `case MESSAGE_GATEWAY_REQ`: the wait for the
siblings and the re-broadcast of the request with a fresh child budget. -/
def forwardToChildren (fe : ForwardEngine) (env : Env) (seqNum backoff : Nat) : Env :=
  if fe.numChildren > 0 then
    let remainingTime := sub32 fe.maxBackoffTime backoff
    let (r, env1) := random (toLong remainingTime)
      (toLong (add32 remainingTime fe.maxBackoffTime)) env
    let env2 := sleepForMillis (toULong r) env1
    let childBackoffTime := cappedChildBackoff env.intBits fe.numChildren fe.gatewayReqTime
    let gwReq := mkMessage fe.myAddr BROADCAST_ADDR
      (.gatewayRequest seqNum fe.gatewayReqTime childBackoffTime)
    send gwReq BROADCAST_ADDR env2
  else env

/-- The `else` branch of `case MESSAGE_GATEWAY_REQ`: a request from the parent,
received by a node that is not a gateway. -/
def acceptGatewayRequest (fe : ForwardEngine) (env : Env)
    (seqNum nextReqTime childBackoffTime : Nat) : ForwardEngine × Env :=
  let receivingPeriodStart := env.rtcNow
  let parent := { fe.myParent with requireChecking := false, lastAliveTime := getTimeMillis env }
  let fe1 := { fe with myParent := parent, maxBackoffTime := childBackoffTime }
  let (backoff, env1) := replyToParent fe1 env seqNum
  let fe2 := { fe1 with gatewayReqTime := nextReqTime }
  let env2 := forwardToChildren fe2 env1 seqNum backoff
  if fe2.sleepMode = SleepMode.SLEEP_RTC_INTERRUPT then
    scheduleReceiving receivingPeriodStart fe2 env2
  else (fe2, env2)

/-- The `switch (msg->type)` of the main loop of `run()`, for a received message. -/
def handleMessage (fe : ForwardEngine) (env : Env) (msg : GenericMessage) :
    ForwardEngine × Env :=
  let nodeAddr := msg.srcAddr
  match msg.body with
  | .join =>
    if msg.srcAddr.b0 = fe.myParent.parentAddr.b0 ∧ msg.srcAddr.b1 = fe.myParent.parentAddr.b1 then
      (fe, env)
    else
      let ack := mkMessage fe.myAddr nodeAddr (.joinAck fe.hopsToGateway)
      let (backoff, env1) := random (MIN_BACKOFF_TIME : Int) (MAX_JOIN_ACK_BACKOFF_TIME : Int) env
      let env2 := sleepForMillis (toULong backoff) env1
      (fe, send ack nodeAddr env2)
  | .joinCFM _ =>
    if findChild fe.childrenList msg.srcAddr then (fe, env)
    else
      ({ fe with childrenList := msg.srcAddr :: fe.childrenList,
                 numChildren := (fe.numChildren + 1) % 256 }, env)
  | .gatewayRequest seqNum nextReqTime childBackoffTime =>
    if msg.srcAddr.b0 ≠ fe.myParent.parentAddr.b0 ∨ msg.srcAddr.b1 ≠ fe.myParent.parentAddr.b1 then
      (fe, env)
    else if isGateway fe.myAddr then (fe, env)
    else acceptGatewayRequest fe env seqNum nextReqTime childBackoffTime
  | .nodeReply seqNum dataLength data =>
    if isGateway fe.myAddr then
      if fe.onRecvResponse then
        (fe, { env with trace := env.trace ++ [.onRecvResponse data dataLength msg.srcAddr] })
      else (fe, env)
    else
      let nReply := mkMessage msg.srcAddr fe.myParent.parentAddr (.nodeReply seqNum dataLength data)
      let (backoff, env1) := random (MIN_BACKOFF_TIME : Int) (toLong fe.maxBackoffTime) env
      let env2 := sleepForMillis (toULong backoff) env1
      (fe, send nReply fe.myParent.parentAddr env2)
  | _ => (fe, env)

/-- The gateway branch that ends an iteration of the main loop of `run()`:
`if ((unsigned long)(currentTime - lastReqTime) >= gatewayReqTime)` a new request is
broadcast. -/
def gatewayTick (fe : ForwardEngine) (env : Env) : ForwardEngine × Env :=
  let currentTime := getTimeMillis env
  if sub32 currentTime fe.lastReqTime ≥ fe.gatewayReqTime then
    let fe1 := { fe with seqNum := (fe.seqNum + 1) % 256, lastReqTime := currentTime }
    let childBackoffTime := cappedChildBackoff env.intBits fe1.numChildren fe1.gatewayReqTime
    let gwReq := mkMessage fe1.myAddr BROADCAST_ADDR
      (.gatewayRequest fe1.seqNum fe1.gatewayReqTime childBackoffTime)
    (fe1, send gwReq BROADCAST_ADDR env)
  else (fe, env)

/-- The messages `msgs` handled one after the other by the `switch` of the main loop
of `run()`. -/
def handleMessages (fe : ForwardEngine) (env : Env) (msgs : List GenericMessage) :
    ForwardEngine × Env :=
  msgs.foldl (fun s m => handleMessage s.1 s.2 m) (fe, env)

/-! ## The MessageCodec

`MessageProcessor.h` declares the message classes with their `send` functions and
`receiveMessage`; their bodies are not among the sources (the file
`MessageProcessor.cpp` there belongs to an earlier revision of the classes, with
other fields and constructors, and its `send` functions transmit nothing). The codec
below follows the wire table of the specification, whose header has 3 bytes: the
type and the source address. `MSG_LEN_GENERIC` of `MessageProcessor.h` is 5; the
other `MSG_LEN_` constants exceed it by the lengths of the trailers below. -/

/-- A quiet environment at time 0 on a board with 16-bit `int`. -/
def sampleEnv : Env :=
  { now := 0, rtcNow := 0, inbox := [], randoms := [], requestData := [], uninitData := [],
    uninitLength := 0, intBits := 16, allowReceiving := true, interruptsEnabled := true,
    trace := [] }

/-- The node 0x01,0x02 as `run()` leaves it before the first `join()`: Unjoined, its
own parent. -/
def sampleUnjoined : ForwardEngine :=
  { myAddr := ⟨0x01, 0x02⟩, myParent := ⟨0, 255, ⟨0x01, 0x02⟩, 0, false⟩, hopsToGateway := 255,
    state := INIT, numChildren := 0, childrenList := [], checkAliveInterval := 300000,
    gatewayReqTime := DEFAULT_NEXT_GATEWAY_REQ_TIME, lastReqTime := 0, seqNum := 0,
    maxBackoffTime := MAX_BACKOFF_TIME_FOR_ONE_CHILD, onRecvRequest := true,
    onRecvResponse := false, sleepMode := .NO_SLEEP, nextGatewayReqTime := 0,
    receivingPeriod := 0, firstGatewayContact := false }

/-- The node 0x01,0x02 joined to the gateway 0x81,0x00. -/
def sampleJoined : ForwardEngine :=
  { sampleUnjoined with
    myParent := ⟨0, 0, ⟨0x81, 0x00⟩, -60, false⟩, hopsToGateway := 1, state := JOINED }

/-- A JoinAck of the gateway 0x81,0x00 for the node 0x01,0x02, received at -60. -/
def sampleAck : GenericMessage :=
  { srcAddr := ⟨0x81, 0x00⟩, destAddr := ⟨0x01, 0x02⟩, rssi := -60, body := .joinAck 0 }

/-- The request GatewayRequest{seq=1, interval=60000, childBudget=3000} of the gateway
0x81,0x00. -/
def sampleRequest : GenericMessage :=
  { srcAddr := ⟨0x81, 0x00⟩, destAddr := BROADCAST_ADDR, rssi := -60,
    body := .gatewayRequest 1 60000 3000 }

/-- The script in which the gateway acknowledges 250 ms after the beacon. -/
def sampleEnvWithAck : Env := { sampleEnv with inbox := [⟨250, some sampleAck⟩] }

/-- The node `sampleUnjoined` after `join()` in `sampleEnvWithAck`. -/
def sampleJoinedByAck : ForwardEngine :=
  { sampleUnjoined with
    myParent := ⟨10250, 0, ⟨0x81, 0x00⟩, -60, false⟩, hopsToGateway := 1 }

/-- The environment `sampleEnvWithAck` after that `join()`. -/
def sampleEnvAfterJoin : Env :=
  { sampleEnv with
    now := 10250,
    trace := [.send (mkMessage ⟨0x01, 0x02⟩ BROADCAST_ADDR .join) BROADCAST_ADDR,
              .send (mkMessage ⟨0x01, 0x02⟩ ⟨0x81, 0x00⟩ (.joinCFM 0)) ⟨0x81, 0x00⟩] }

/-- An environment in which the generator gives 745 and the callback the two bytes
0x17, 0x2A. -/
def sampleEnvWithData : Env :=
  { sampleEnv with randoms := [745], requestData := [([0x17, 0x2A], 2)] }

/-- The gateway 0x81,0x00 with the child 0x01,0x02 registered. -/
def sampleGateway : ForwardEngine :=
  { sampleUnjoined with
    myAddr := ⟨0x81, 0x00⟩, myParent := ⟨0, 255, ⟨0x81, 0x00⟩, 0, false⟩, hopsToGateway := 0,
    state := JOINED, numChildren := 1, childrenList := [⟨0x01, 0x02⟩] }

/-- The environment `sampleEnv` after a `join()` that heard nothing. -/
def sampleEnvAfterSilence : Env :=
  { sampleEnv with
    now := 10000,
    trace := [.send (mkMessage ⟨0x01, 0x02⟩ BROADCAST_ADDR .join) BROADCAST_ADDR] }

/-- The node 0x01,0x02 joined to the gateway 0x81,0x00, with eleven children of its
own. -/
def sampleRelay : ForwardEngine :=
  { sampleJoined with
    numChildren := 11,
    childrenList := [⟨0x01, 0x10⟩, ⟨0x01, 0x11⟩, ⟨0x01, 0x12⟩, ⟨0x01, 0x13⟩, ⟨0x01, 0x14⟩,
      ⟨0x01, 0x15⟩, ⟨0x01, 0x16⟩, ⟨0x01, 0x17⟩, ⟨0x01, 0x18⟩, ⟨0x01, 0x19⟩, ⟨0x01, 0x1A⟩] }

/-- The JoinConfirms of the six nodes 0x01,0x10 to 0x01,0x15 for the node 0x01,0x02. -/
def sampleConfirms : List GenericMessage :=
  [mkMessage ⟨0x01, 0x10⟩ ⟨0x01, 0x02⟩ (.joinCFM 0), mkMessage ⟨0x01, 0x11⟩ ⟨0x01, 0x02⟩ (.joinCFM 0),
   mkMessage ⟨0x01, 0x12⟩ ⟨0x01, 0x02⟩ (.joinCFM 0), mkMessage ⟨0x01, 0x13⟩ ⟨0x01, 0x02⟩ (.joinCFM 0),
   mkMessage ⟨0x01, 0x14⟩ ⟨0x01, 0x02⟩ (.joinCFM 0), mkMessage ⟨0x01, 0x15⟩ ⟨0x01, 0x02⟩ (.joinCFM 0)]

/-- The script of ten silent seconds followed by the JoinAck of the gateway. -/
def sampleEnvLateAck : Env :=
  { sampleEnv with inbox := List.replicate 10 ⟨1000, none⟩ ++ [⟨250, some sampleAck⟩] }

/-- The gateway 0x81,0x00 with request interval 60000 ms and eleven registered
children. -/
def sampleBusyGateway : ForwardEngine :=
  { sampleRelay with
    myAddr := ⟨0x81, 0x00⟩, myParent := ⟨0, 255, ⟨0x81, 0x00⟩, 0, false⟩, hopsToGateway := 0,
    gatewayReqTime := 60000 }

/-! ## Words of the specification about parent selection -/

/-- The hop count a message advertises: that of a `JoinAck`, and 255 (no path) for
every other message. -/
def advertisedHops (m : GenericMessage) : Nat :=
  match m.body with
  | .joinAck h => h
  | _ => 255

/-- A message is a `JoinAck` that advertises a path to the gateway. -/
def hasPath (m : GenericMessage) : Bool :=
  decide (advertisedHops m ≠ 255)

/-- The signal strength of the message reaches the threshold. -/
def aboveThreshold (m : GenericMessage) : Bool :=
  decide (m.rssi ≥ RSSI_THRESHOLD)

/-- The acks that compete for selection: the first ack with a path, whatever its
signal strength, and the later acks with a path whose signal strength reaches the
threshold. -/
def eligibleAcks (msgs : List GenericMessage) : List GenericMessage :=
  match msgs.filter hasPath with
  | [] => []
  | a :: rest => a :: rest.filter aboveThreshold

/-- Ack `a` is at least as good as ack `b`: fewer hops, or the same hops and a
signal at least as strong. -/
def atLeastAsGood (a b : GenericMessage) : Prop :=
  advertisedHops a < advertisedHops b ∨
    (advertisedHops a = advertisedHops b ∧ b.rssi ≤ a.rssi)

instance atLeastAsGood.decidable (a b : GenericMessage) : Decidable (atLeastAsGood a b) := by
  unfold atLeastAsGood; infer_instance

/-- The record that `join()` holds when the sender of ack `m` is the candidate. -/
def candidateOf (seed : ParentInfo) (m : GenericMessage) : ParentInfo :=
  takeCandidate seed m.srcAddr (advertisedHops m) m.rssi

/-! ## `ForwardEngine::run`: the sleep phase and the iterations of the main loop -/

/-- The call `noInterrupts()`. -/
def noInterrupts (env : Env) : Env :=
  { env with interruptsEnabled := false, trace := env.trace ++ [.noInterrupts] }

/-- The call `interrupts()`. -/
def interrupts (env : Env) : Env :=
  { env with interruptsEnabled := true, trace := env.trace ++ [.interrupts] }

/-- The handler `rtcISR()`: `allowReceiving = !allowReceiving;`, then the handler
detaches itself. -/
def rtcISR (env : Env) : Env :=
  { env with allowReceiving := !env.allowReceiving, trace := env.trace ++ [.rtcISR] }

/-- Modelled from the spec: `powerDownMCU()` of `EbyteDeviceDriver.h`, which is not
among the sources. The processor sleeps until an interrupt wakes it, so interrupts
are enabled when the call returns; `rtcFired` tells whether the wake-up came from the
RTC alarm, whose handler has then run (the second of the two causes that the comment
in `run()` names). -/
def powerDownMCU (rtcFired : Bool) (env : Env) : Env :=
  let env1 := { env with interruptsEnabled := true, trace := env.trace ++ [.powerDownMCU] }
  if rtcFired then rtcISR env1 else env1

/-- Modelled from the spec: `sleep_cpu()` of `avr/sleep.h`, which is not among the
sources: the processor halts until an interrupt; `rtcFired` tells whether the RTC
alarm handler ran before the call returns. -/
def sleepCpu (rtcFired : Bool) (env : Env) : Env :=
  let env1 := { env with trace := env.trace ++ [.sleepCpu] }
  if rtcFired then rtcISR env1 else env1

/-- The `else` branch of `if (allowReceiving)` in the sleep phase, after the flag was
found false: the transceiver is put to sleep, the alarm set to three seconds before
the next expected request, the processor halted; after the wake-up
`if (!allowReceiving) allowReceiving = true;`, the 50 ms start-up wait, and the alarm
for the end of the receiving period (`time_t` is an `unsigned long`). -/
def rtcSleep (rtcFired : Bool) (fe : ForwardEngine) (env : Env) : Env :=
  let env1 := interrupts env
  let env2 := { env1 with trace := env1.trace ++
    [.enterSleepMode, .rtcAlarm, .rtcSetAlarmDate (sub32 fe.nextGatewayReqTime 3)] }
  let env3 := noInterrupts env2
  let env4 := { env3 with trace := env3.trace ++ [.attachInterrupt] }
  let env5 := interrupts env4
  let env6 := sleepCpu rtcFired env5
  let env7 := { env6 with trace := env6.trace ++ [.rtcAlarm] }
  let env8 :=
    if !env7.allowReceiving then
      { env7 with allowReceiving := true, trace := env7.trace ++ [.writeAllowReceiving true] }
    else env7
  let env9 := sleepForMillis 50 env8
  let receivingPeriodEnd := add32 env9.rtcNow fe.receivingPeriod
  { env9 with trace := env9.trace ++
    [.enterTransMode, .rtcSetAlarmDate receivingPeriodEnd, .attachInterrupt] }

/-- The sleep phase that starts an iteration of the main loop of `run()`:
`if (myDriver->getDeviceType() == DeviceType::EBYTE_E22 && !(myAddr[0] &
GATEWAY_ADDRESS_MASK))`, in one of the two sleep modes, with nothing to read
(`myDriver->available() < 1`): `noInterrupts(); if (allowReceiving)` the processor is
powered down, else the RTC sleep. `ebyte` is the outcome of the device test,
`available` that of `myDriver->available()`. -/
def sleepPhase (ebyte : Bool) (available : Int) (rtcFired : Bool) (fe : ForwardEngine)
    (env : Env) : Env :=
  if ebyte = true ∧ isGateway fe.myAddr = false then
    if fe.sleepMode = SleepMode.SLEEP_TRANSCEIVER_INTERRUPT ∨
        fe.sleepMode = SleepMode.SLEEP_RTC_INTERRUPT then
      if available < 1 then
        let env1 := noInterrupts env
        let env2 := { env1 with trace := env1.trace ++ [.checkAllowReceiving env1.allowReceiving] }
        if env2.allowReceiving then sleepForMillis 50 (powerDownMCU rtcFired env2)
        else rtcSleep rtcFired fe env2
      else env
    else env
  else env

/-! ## The floating-point comparison of the liveness branch

`NEXT_GATEWAY_REQ_TIME_TOLERANCE_FACTOR` is the `double` literal 1.2, so the
comparison `(unsigned long)(...) > 1.2 * gatewayReqTime` converts both `unsigned
long` operands to `double` and rounds the product. A finite positive `double` with a
mantissa of `p` bits is a natural number of at most `p` significant bits times a
power of two; `p` is 53 for an IEEE binary64 `double` and 24 where `double` has 32
bits, as on the AVR boards whose registers `run()` writes. -/

/-- The branch `else if (sleepMode == SleepMode::NO_SLEEP && (unsigned long)(currentTime
- myParent.lastAliveTime) > NEXT_GATEWAY_REQ_TIME_TOLERANCE_FACTOR * gatewayReqTime)`
that ends an iteration at a node that is not a gateway: `state = INIT`. The
comparison is made in floating point; `exceeds elapsed gatewayReqTime` is its
outcome. -/
def livenessTick (exceeds : Nat → Nat → Bool) (fe : ForwardEngine) (env : Env) :
    ForwardEngine :=
  if fe.sleepMode = SleepMode.NO_SLEEP ∧
      exceeds (sub32 (getTimeMillis env) fe.myParent.lastAliveTime) fe.gatewayReqTime = true then
    { fe with state := INIT }
  else fe

/-- What the surroundings decide in one iteration of the main loop: the result of
`myDriver->available()` and whether the RTC alarm ends the sleep. -/
structure LoopInput where
  available : Int
  rtcFired : Bool
deriving DecidableEq, Repr

/-- One iteration of the loop `while (state == JOINED)` of `run()`: the sleep phase,
`receiveMessage(myDriver, RECEIVE_TIMEOUT)`, the `switch` for a received message,
then the gateway branch or the liveness branch. -/
def runIteration (ebyte : Bool) (exceeds : Nat → Nat → Bool) (inp : LoopInput)
    (fe : ForwardEngine) (env : Env) : ForwardEngine × Env :=
  let env0 := sleepPhase ebyte inp.available inp.rtcFired fe env
  let handled :=
    match receiveMessage env0 RECEIVE_TIMEOUT with
    | (none, env1) => (fe, env1)
    | (some msg, env1) => handleMessage fe env1 msg
  if isGateway handled.1.myAddr then gatewayTick handled.1 handled.2
  else (livenessTick exceeds handled.1 handled.2, handled.2)

/-- The loop `while (state == JOINED)` of `run()`, for the iterations that `inputs`
describes. -/
def runLoop (ebyte : Bool) (exceeds : Nat → Nat → Bool) :
    List LoopInput → ForwardEngine → Env → ForwardEngine × Env
  | [], fe, env => (fe, env)
  | inp :: rest, fe, env =>
    if fe.state = JOINED then
      runLoop ebyte exceeds rest (runIteration ebyte exceeds inp fe env).1
        (runIteration ebyte exceeds inp fe env).2
    else (fe, env)

/-- The statements of `run()` after the main loop: `myParent.parentAddr` becomes the
own address and `myParent.hopsToGateway` 255. -/
def runExit (fe : ForwardEngine) : ForwardEngine :=
  { fe with myParent := { fe.myParent with parentAddr := fe.myAddr, hopsToGateway := 255 } }

/-! ## Construction and configuration -/

/-- The constructor `ForwardEngine::ForwardEngine(addr, driver)` with the default
member initialisers of the class; `uninit` holds the members that neither of them
sets (`state`, `hopsToGateway`, `lastReqTime`, the callbacks, the other fields of
`myParent`). The call `randomSeed(analogRead(A0))` concerns the generator, whose
values the environment gives. -/
def newForwardEngine (addr : Addr) (uninit : ForwardEngine) : ForwardEngine :=
  { uninit with
    myAddr := addr,
    myParent := { uninit.myParent with parentAddr := addr, hopsToGateway := 255 },
    numChildren := 0, childrenList := [], checkAliveInterval := 300000,
    gatewayReqTime := DEFAULT_NEXT_GATEWAY_REQ_TIME, seqNum := 0,
    maxBackoffTime := MAX_BACKOFF_TIME_FOR_ONE_CHILD, sleepMode := SleepMode.NO_SLEEP }

/-- The function `ForwardEngine::setAddr`: `memcpy(myAddr, addr, 2);`. -/
def setAddr (addr : Addr) (fe : ForwardEngine) : ForwardEngine :=
  { fe with myAddr := addr }

/-- The function `ForwardEngine::setGatewayReqTime`. -/
def setGatewayReqTime (gatewayReqTime : Nat) (fe : ForwardEngine) : ForwardEngine :=
  { fe with gatewayReqTime := gatewayReqTime % 2 ^ 32 }

/-- The function `ForwardEngine::setSleepMode`, as far as the node is concerned: for
the RTC mode it returns without a change when the RTC cannot be read
(`RTC.read(tm) != 0`, here `rtcError`) or the pin is not 2 or 3; otherwise
`this->sleepMode = sleepMode`. The set-up calls to the RTC do not touch the node. -/
def setSleepMode (sleepMode : SleepMode) (rtcInterruptPin : Int) (rtcError : Bool)
    (fe : ForwardEngine) : ForwardEngine :=
  if sleepMode = SleepMode.SLEEP_RTC_INTERRUPT then
    if rtcError then fe
    else if rtcInterruptPin < 2 ∨ rtcInterruptPin > 3 then fe
    else { fe with sleepMode := sleepMode }
  else { fe with sleepMode := sleepMode }

/-! ## Words of the specification about the run loop -/

/-- The sequence number of a GatewayRequest that an action sends. -/
def requestSeq : Action → Option Nat
  | .send msg _ =>
    match msg.body with
    | .gatewayRequest seqNum _ _ => some seqNum
    | _ => none
  | _ => none

/-- The sequence numbers of the GatewayRequests sent in a trace, in order. -/
def requestSeqs (trace : List Action) : List Nat :=
  trace.filterMap requestSeq

/-- The interrupt mask (true: interrupts enabled) after the actions of a trace, from
the mask `enabled` before them. -/
def maskAfter : Bool → List Action → Bool
  | enabled, [] => enabled
  | _, .noInterrupts :: rest => maskAfter false rest
  | _, .interrupts :: rest => maskAfter true rest
  | _, .powerDownMCU :: rest => maskAfter true rest
  | enabled, _ :: rest => maskAfter enabled rest

/-- The accesses of the main loop to the flag `allowReceiving` that a trace holds,
in order (the writes, and the check that decides how to sleep), each with the
interrupt mask at that program point (true: interrupts enabled); `enabled` is the
mask before the first action. -/
def flagAccesses : Bool → List Action → List (Action × Bool)
  | _, [] => []
  | _, .noInterrupts :: rest => flagAccesses false rest
  | _, .interrupts :: rest => flagAccesses true rest
  | _, .powerDownMCU :: rest => flagAccesses true rest
  | enabled, .checkAllowReceiving value :: rest =>
    (.checkAllowReceiving value, enabled) :: flagAccesses enabled rest
  | enabled, .writeAllowReceiving value :: rest =>
    (.writeAllowReceiving value, enabled) :: flagAccesses enabled rest
  | enabled, _ :: rest => flagAccesses enabled rest

/-- The parent record says that the node is Unjoined: it names the node itself and
has no path. -/
def unjoinedRecord (fe : ForwardEngine) : Prop :=
  fe.myParent.parentAddr = fe.myAddr ∧ fe.myParent.hopsToGateway = 255

instance unjoinedRecord.decidable (fe : ForwardEngine) : Decidable (unjoinedRecord fe) := by
  unfold unjoinedRecord; infer_instance

/-! ## Theorems -/

theorem takeCandidate_takeCandidate (p : ParentInfo) (a a2 : Addr) (h h2 : Nat) (r r2 : Int) :
    takeCandidate (takeCandidate p a h r) a2 h2 r2 = takeCandidate p a2 h2 r2 := rfl

theorem joinSwitch_no_path (best : ParentInfo) (m : GenericMessage) (h : hasPath m = false) :
    joinSwitch best m = best := by
  unfold hasPath advertisedHops at h
  unfold joinSwitch
  cases hb : m.body <;> simp_all

theorem joinSwitch_first (best : ParentInfo) (m : GenericMessage)
    (hb : best.hopsToGateway = 255) (h : hasPath m = true) :
    joinSwitch best m = candidateOf best m := by
  unfold hasPath advertisedHops at h
  unfold joinSwitch candidateOf advertisedHops
  cases hm : m.body <;> simp_all

theorem atLeastAsGood_refl (a : GenericMessage) : atLeastAsGood a a :=
  Or.inr ⟨rfl, le_refl _⟩

theorem atLeastAsGood_trans {a b c : GenericMessage} (h1 : atLeastAsGood a b)
    (h2 : atLeastAsGood b c) : atLeastAsGood a c := by
  unfold atLeastAsGood at *
  omega

theorem atLeastAsGood_total (a b : GenericMessage) : atLeastAsGood a b ∨ atLeastAsGood b a := by
  unfold atLeastAsGood
  omega

/-- What the switch does to a candidate taken from ack `c` when ack `m` arrives:
`m` takes over exactly when it has a path, reaches the threshold and is strictly
better than `c`. -/
theorem joinSwitch_candidateOf (seed : ParentInfo) (c m : GenericMessage)
    (hc : hasPath c = true) :
    (hasPath m = true ∧ aboveThreshold m = true ∧ ¬ atLeastAsGood c m ∧
        joinSwitch (candidateOf seed c) m = candidateOf seed m) ∨
    ((hasPath m = true → aboveThreshold m = true → atLeastAsGood c m) ∧
        joinSwitch (candidateOf seed c) m = candidateOf seed c) := by
  unfold hasPath aboveThreshold atLeastAsGood at *
  unfold joinSwitch candidateOf takeCandidate
  cases hm : m.body <;> simp_all [advertisedHops]
  rename_i h
  by_cases h255 : h = 255
  · simp [h255]
  · by_cases hr : RSSI_THRESHOLD ≤ m.rssi
    · by_cases hb : h < advertisedHops c ∨ (h = advertisedHops c ∧ c.rssi < m.rssi)
      · left
        simp_all [advertisedHops]
        omega
      · right
        simp_all [advertisedHops]
        omega
    · right
      simp_all [advertisedHops]

/-- The fold from a candidate taken from an ack with a path: the result is taken
from that ack or from a later ack with a path and a signal at the threshold, and it
is at least as good as every one of them. -/
theorem foldAcks_candidateOf (seed : ParentInfo) (l : List GenericMessage) :
    ∀ c : GenericMessage, hasPath c = true →
      ∃ a ∈ c :: (l.filter hasPath).filter aboveThreshold,
        foldAcks (candidateOf seed c) l = candidateOf seed a ∧
        ∀ b ∈ c :: (l.filter hasPath).filter aboveThreshold, atLeastAsGood a b := by
  induction l with
  | nil =>
    intro c _
    exact ⟨c, by simp, rfl, by simp [atLeastAsGood_refl]⟩
  | cons m l ih =>
    intro c hc
    have hstep : foldAcks (candidateOf seed c) (m :: l)
        = foldAcks (joinSwitch (candidateOf seed c) m) l := rfl
    rcases joinSwitch_candidateOf seed c m hc with ⟨hp, ht, hnot, hsw⟩ | ⟨himp, hsw⟩
    · obtain ⟨a, ha, hfold, hbest⟩ := ih m hp
      have hmc : atLeastAsGood m c := by
        rcases atLeastAsGood_total m c with h | h
        · exact h
        · exact absurd h hnot
      refine ⟨a, ?_, ?_, ?_⟩
      · simp only [List.filter_cons, hp, ht, if_true, List.mem_cons] at ha ⊢
        tauto
      · rw [hstep, hsw, hfold]
      · intro b hb
        simp only [List.filter_cons, hp, ht, if_true, List.mem_cons] at hb
        rcases hb with rfl | rfl | hb
        · exact atLeastAsGood_trans (hbest m (by simp)) hmc
        · exact hbest b (by simp)
        · exact hbest b (List.mem_cons_of_mem _ hb)
    · obtain ⟨a, ha, hfold, hbest⟩ := ih c hc
      refine ⟨a, ?_, ?_, ?_⟩
      · simp only [List.mem_cons, List.mem_filter] at ha ⊢
        tauto
      · rw [hstep, hsw, hfold]
      · intro b hb
        simp only [List.mem_cons, List.mem_filter] at hb
        rcases hb with rfl | ⟨⟨rfl | hb, hp⟩, ht⟩
        · exact hbest b (by simp)
        · exact atLeastAsGood_trans (hbest c (by simp)) (himp hp ht)
        · exact hbest b (by simp [hb, hp, ht])

theorem sub32_add32_step (a b : Nat) (h : sub32 a b < DISCOVERY_TIMEOUT) :
    sub32 (add32 a RECEIVE_TIMEOUT) b = sub32 a b + RECEIVE_TIMEOUT := by
  unfold sub32 add32 DISCOVERY_TIMEOUT RECEIVE_TIMEOUT at *
  norm_num at *
  omega

theorem joinLoop_closed (fuel previousTime : Nat) (best : ParentInfo) (env : Env)
    (hw : ¬ sub32 env.now previousTime < DISCOVERY_TIMEOUT) :
    joinLoop (fuel + 1) previousTime best env = some (best, env) := by
  simp [joinLoop, getTimeMillis, hw]

theorem joinLoop_open_nil (fuel previousTime : Nat) (best : ParentInfo) (env : Env)
    (hw : sub32 env.now previousTime < DISCOVERY_TIMEOUT) (hin : env.inbox = []) :
    joinLoop (fuel + 1) previousTime best env
      = joinLoop fuel previousTime best { env with now := add32 env.now RECEIVE_TIMEOUT } := by
  simp [joinLoop, getTimeMillis, hw, receiveMessage, hin]

theorem joinLoop_open_cons (fuel previousTime : Nat) (best : ParentInfo) (env : Env)
    (ev : RecvEvent) (rest : List RecvEvent)
    (hw : sub32 env.now previousTime < DISCOVERY_TIMEOUT) (hin : env.inbox = ev :: rest) :
    joinLoop (fuel + 1) previousTime best env
      = joinLoop fuel previousTime (foldAcks best ev.msg.toList)
          { env with now := add32 env.now ev.elapsed, inbox := rest } := by
  simp only [joinLoop, getTimeMillis, hw, if_true, receiveMessage, hin]
  cases ev.msg <;> rfl

/-- With a silent radio the window closes within ten receive timeouts. -/
theorem joinLoop_silent (previousTime : Nat) (best : ParentInfo) :
    ∀ (fuel : Nat) (env : Env), env.inbox = [] →
      DISCOVERY_TIMEOUT ≤ sub32 env.now previousTime + RECEIVE_TIMEOUT * fuel →
      (joinLoop (fuel + 1) previousTime best env).isSome = true := by
  intro fuel
  induction fuel with
  | zero =>
    intro env _ h
    rw [joinLoop_closed _ _ _ _ (by omega)]
    rfl
  | succ n ih =>
    intro env hin h
    by_cases hw : sub32 env.now previousTime < DISCOVERY_TIMEOUT
    · have hstep := sub32_add32_step env.now previousTime hw
      rw [joinLoop_open_nil _ _ _ _ hw hin]
      refine ih _ hin ?_
      show DISCOVERY_TIMEOUT ≤ sub32 (add32 env.now RECEIVE_TIMEOUT) previousTime + RECEIVE_TIMEOUT * n
      rw [hstep]
      unfold RECEIVE_TIMEOUT DISCOVERY_TIMEOUT at *
      omega
    · rw [joinLoop_closed _ _ _ _ hw]
      rfl

/-- The discovery loop ends: one iteration per scripted receive outcome, ten for
the silence after them, and one to see the window closed. -/
theorem joinLoop_terminates (previousTime : Nat) :
    ∀ (inbox : List RecvEvent) (fuel : Nat) (best : ParentInfo) (env : Env),
      env.inbox = inbox → inbox.length + 11 ≤ fuel →
      (joinLoop fuel previousTime best env).isSome = true := by
  intro inbox
  induction inbox with
  | nil =>
    intro fuel best env hin hf
    obtain ⟨f, rfl⟩ : ∃ f, fuel = f + 1 := ⟨fuel - 1, by simp at hf; omega⟩
    apply joinLoop_silent previousTime best f env hin
    simp at hf
    unfold DISCOVERY_TIMEOUT RECEIVE_TIMEOUT
    omega
  | cons ev rest ih =>
    intro fuel best env hin hf
    obtain ⟨f, rfl⟩ : ∃ f, fuel = f + 1 := ⟨fuel - 1, by simp at hf; omega⟩
    by_cases hw : sub32 env.now previousTime < DISCOVERY_TIMEOUT
    · rw [joinLoop_open_cons _ _ _ _ ev rest hw hin]
      exact ih f _ _ rfl (by simp at hf ⊢; omega)
    · rw [joinLoop_closed _ _ _ _ hw]
      rfl


/-- What the discovery loop returns: some number of scripted receive outcomes were
consumed, the candidate is the fold of the switch over their messages, only the
clock and the script changed, and the window is closed. -/
theorem joinLoop_result (previousTime : Nat) :
    ∀ (fuel : Nat) (best : ParentInfo) (env : Env) (best1 : ParentInfo) (env1 : Env),
      joinLoop fuel previousTime best env = some (best1, env1) →
      ∃ k, k ≤ env.inbox.length ∧ env1.inbox = env.inbox.drop k ∧
        best1 = foldAcks best ((env.inbox.take k).filterMap RecvEvent.msg) ∧
        env1 = { env with now := env1.now, inbox := env1.inbox } ∧
        DISCOVERY_TIMEOUT ≤ sub32 env1.now previousTime := by
  intro fuel
  induction fuel with
  | zero =>
    intro best env best1 env1 h
    simp [joinLoop] at h
  | succ f ih =>
    intro best env best1 env1 h
    by_cases hw : sub32 env.now previousTime < DISCOVERY_TIMEOUT
    · cases hin : env.inbox with
      | nil =>
        rw [joinLoop_open_nil _ _ _ _ hw hin] at h
        obtain ⟨k, hk, hdrop, hbest, henv, hclosed⟩ := ih _ _ _ _ h
        simp only [hin, List.length_nil, Nat.le_zero] at hk
        subst hk
        refine ⟨0, by simp, ?_, ?_, ?_, hclosed⟩
        · simpa [hin] using hdrop
        · simpa [hin] using hbest
        · rw [henv]
      | cons ev rest =>
        rw [joinLoop_open_cons _ _ _ _ ev rest hw hin] at h
        obtain ⟨k, hk, hdrop, hbest, henv, hclosed⟩ := ih _ _ _ _ h
        refine ⟨k + 1, by simpa using hk, by simpa using hdrop, ?_, ?_, hclosed⟩
        · rw [hbest]
          simp only [foldAcks, List.take_succ_cons, ← List.foldl_append]
          congr 1
          cases hm : ev.msg <;> simp [List.filterMap_cons, hm]
        · rw [henv]
    · rw [joinLoop_closed _ _ _ _ hw] at h
      simp only [Option.some.injEq, Prod.mk.injEq] at h
      obtain ⟨rfl, rfl⟩ := h
      exact ⟨0, by simp, by simp, by simp [foldAcks], rfl, by omega⟩

/-- The candidate after any sequence of messages is the seed or is taken from a
message with a path. -/
theorem foldAcks_seed_or_path (msgs : List GenericMessage) :
    ∀ seed : ParentInfo, foldAcks seed msgs = seed ∨
      ∃ m ∈ msgs, hasPath m = true ∧ foldAcks seed msgs = candidateOf seed m := by
  induction msgs with
  | nil => intro seed; exact Or.inl rfl
  | cons m l ih =>
    intro seed
    have hstep : foldAcks seed (m :: l) = foldAcks (joinSwitch seed m) l := rfl
    have hsw : joinSwitch seed m = seed ∨
        (hasPath m = true ∧ joinSwitch seed m = candidateOf seed m) := by
      unfold joinSwitch candidateOf hasPath advertisedHops
      cases hb : m.body <;> simp
      split_ifs <;> simp_all
    rcases hsw with hsw | ⟨hp, hsw⟩
    · rw [hstep, hsw]
      rcases ih seed with h | ⟨a, ha, hpa, h⟩
      · exact Or.inl h
      · exact Or.inr ⟨a, List.mem_cons_of_mem _ ha, hpa, h⟩
    · rw [hstep, hsw]
      rcases ih (candidateOf seed m) with h | ⟨a, ha, hpa, h⟩
      · exact Or.inr ⟨m, by simp, hp, h⟩
      · exact Or.inr ⟨a, List.mem_cons_of_mem _ ha, hpa, h⟩


theorem findChild_iff_mem (l : List Addr) (a : Addr) : findChild l a = true ↔ a ∈ l := by
  induction l with
  | nil => simp [findChild]
  | cons c rest ih =>
    have hc : (c.b0 = a.b0 ∧ c.b1 = a.b1) ↔ a = c := by
      cases a; cases c; simp; tauto
    by_cases h : c.b0 = a.b0 ∧ c.b1 = a.b1
    · simp [findChild, h, hc.mp h]
    · have hne : ¬ a = c := fun e => h (hc.mpr e)
      simp [findChild, h, ih, hne]

theorem hasPath_joinAck (m : GenericMessage) (hp : hasPath m = true) :
    ∃ h, m.body = .joinAck h ∧ h ≠ 255 ∧ advertisedHops m = h := by
  unfold hasPath advertisedHops at *
  cases hb : m.body <;> simp_all

/-- C2: a JoinAck advertising hopsToGateway = 255 leaves the candidate of `join()`
unchanged; and when `join()` commits a parent (returns true from the Unjoined
state), the committed record is either the record the node already had (no ack was
taken) or is taken from a received JoinAck whose hopsToGateway is not 255, and then
the recorded hopsToGateway is not 255. -/
theorem C2_no_path_ack_never_wins (best : ParentInfo) (ack : GenericMessage)
    (fuel : Nat) (fe fe1 : ForwardEngine) (env env1 : Env)
    (hack : ack.body = .joinAck 255) (hs : fe.state = INIT)
    (hj : join fuel fe env = some (true, fe1, env1)) :
    joinSwitch best ack = best ∧
    ((fe1.myParent.parentAddr = fe.myParent.parentAddr ∧
        fe1.myParent.hopsToGateway = fe.myParent.hopsToGateway ∧
        fe1.myParent.Rssi = fe.myParent.Rssi) ∨
     (fe1.myParent.hopsToGateway ≠ 255 ∧
        ∃ ev ∈ env.inbox, ∃ m, ev.msg = some m ∧ m.body = .joinAck fe1.myParent.hopsToGateway ∧
          fe1.myParent.parentAddr = m.srcAddr ∧ fe1.myParent.Rssi = m.rssi)) := by
  refine ⟨joinSwitch_no_path best ack (by simp [hasPath, advertisedHops, hack]), ?_⟩
  have hs2 : ¬ fe.state ≠ INIT := by simp [hs]
  simp only [join, hs2, if_false] at hj
  cases hl : joinLoop fuel (getTimeMillis (send (mkMessage fe.myAddr BROADCAST_ADDR .join)
      BROADCAST_ADDR env)) fe.myParent (send (mkMessage fe.myAddr BROADCAST_ADDR .join)
      BROADCAST_ADDR env) with
  | none => simp [hl] at hj
  | some res =>
    obtain ⟨cand, env2⟩ := res
    obtain ⟨k, _, _, hbest, _, _⟩ := joinLoop_result _ _ _ _ _ _ hl
    simp only [hl] at hj
    have hcand : fe1.myParent.parentAddr = cand.parentAddr ∧
        fe1.myParent.hopsToGateway = cand.hopsToGateway ∧ fe1.myParent.Rssi = cand.Rssi := by
      split_ifs at hj with hc
      · simp only [Option.some.injEq, Prod.mk.injEq, true_and] at hj
        obtain ⟨rfl, _⟩ := hj
        exact ⟨rfl, rfl, rfl⟩
      · simp at hj
    obtain ⟨h1, h2, h3⟩ := hcand
    rw [h1, h2, h3, hbest]
    rcases foldAcks_seed_or_path ((List.take k (send (mkMessage fe.myAddr BROADCAST_ADDR .join)
      BROADCAST_ADDR env).inbox).filterMap RecvEvent.msg) fe.myParent with h | ⟨m, hm, hp, h⟩
    · left
      rw [h]
      exact ⟨rfl, rfl, rfl⟩
    · right
      rw [h]
      simp only [List.mem_filterMap] at hm
      obtain ⟨ev, hev, hmsg⟩ := hm
      have hev2 : ev ∈ env.inbox := List.mem_of_mem_take hev
      obtain ⟨hops, hbody, hne, hadv⟩ := hasPath_joinAck m hp
      refine ⟨?_, ev, hev2, m, hmsg, ?_, rfl, rfl⟩
      · show advertisedHops m ≠ 255
        rw [hadv]; exact hne
      · show m.body = .joinAck (advertisedHops m)
        rw [hadv]; exact hbody

/-- C2 witness: the node 0x01,0x02 joins through the ack of the gateway (hops 0). -/
theorem C2_no_path_ack_never_wins_witness :
    ({ sampleAck with body := .joinAck 255 } : GenericMessage).body = .joinAck 255 ∧
    sampleUnjoined.state = INIT ∧
    join 12 sampleUnjoined sampleEnvWithAck = some (true, sampleJoinedByAck, sampleEnvAfterJoin) ∧
    (joinSwitch sampleJoined.myParent { sampleAck with body := .joinAck 255 }
        = sampleJoined.myParent ∧
     ((sampleJoinedByAck.myParent.parentAddr = sampleUnjoined.myParent.parentAddr ∧
        sampleJoinedByAck.myParent.hopsToGateway = sampleUnjoined.myParent.hopsToGateway ∧
        sampleJoinedByAck.myParent.Rssi = sampleUnjoined.myParent.Rssi) ∨
      (sampleJoinedByAck.myParent.hopsToGateway ≠ 255 ∧
        ∃ ev ∈ sampleEnvWithAck.inbox, ∃ m, ev.msg = some m ∧
          m.body = .joinAck sampleJoinedByAck.myParent.hopsToGateway ∧
          sampleJoinedByAck.myParent.parentAddr = m.srcAddr ∧
          sampleJoinedByAck.myParent.Rssi = m.rssi))) :=
  ⟨rfl, rfl, by decide,
    C2_no_path_ack_never_wins sampleJoined.myParent { sampleAck with body := .joinAck 255 } 12
      sampleUnjoined sampleJoinedByAck sampleEnvWithAck sampleEnvAfterJoin rfl rfl (by decide)⟩

/-- C4: `join()` on a node whose state is Joined returns true and changes neither
the node nor the environment: no beacon or other message is sent, no receive outcome
is consumed, the clock is not advanced. -/
theorem C4_join_idempotent (fuel : Nat) (fe : ForwardEngine) (env : Env)
    (h : fe.state = JOINED) : join fuel fe env = some (true, fe, env) := by
  simp [join, h, JOINED, INIT]

/-- C4 witness: the joined node 0x01,0x02 with an ack waiting in the script. -/
theorem C4_join_idempotent_witness :
    sampleJoined.state = JOINED ∧
    join 12 sampleJoined sampleEnvWithAck = some (true, sampleJoined, sampleEnvWithAck) :=
  ⟨rfl, C4_join_idempotent 12 sampleJoined sampleEnvWithAck rfl⟩

/-- C5: a JoinConfirm from an address already in the children list changes neither
the node nor the environment, and handling a JoinConfirm a second time changes
nothing that the first handling produced. -/
theorem C5_child_registration_idempotent (fe : ForwardEngine) (env : Env)
    (msg : GenericMessage) (depth : Nat) (hb : msg.body = .joinCFM depth) :
    (msg.srcAddr ∈ fe.childrenList → handleMessage fe env msg = (fe, env)) ∧
    handleMessage (handleMessage fe env msg).1 (handleMessage fe env msg).2 msg
      = handleMessage fe env msg := by
  have hin : msg.srcAddr ∈ fe.childrenList → handleMessage fe env msg = (fe, env) := by
    intro hm
    simp [handleMessage, hb, (findChild_iff_mem _ _).mpr hm]
  refine ⟨hin, ?_⟩
  by_cases hm : msg.srcAddr ∈ fe.childrenList
  · rw [hin hm, hin hm]
  · have hf : findChild fe.childrenList msg.srcAddr = false := by
      cases hfc : findChild fe.childrenList msg.srcAddr with
      | false => rfl
      | true => exact absurd ((findChild_iff_mem _ _).mp hfc) hm
    have h1 : handleMessage fe env msg
        = ({ fe with childrenList := msg.srcAddr :: fe.childrenList,
                     numChildren := (fe.numChildren + 1) % 256 }, env) := by
      simp [handleMessage, hb, hf]
    rw [h1]
    simp [handleMessage, hb, findChild]


/-- C5 witness: the gateway 0x81,0x00 with the child 0x01,0x02 receives its
JoinConfirm again. -/
theorem C5_child_registration_idempotent_witness :
    (mkMessage ⟨0x01, 0x02⟩ ⟨0x81, 0x00⟩ (.joinCFM 0)).body = .joinCFM 0 ∧
    ((mkMessage ⟨0x01, 0x02⟩ ⟨0x81, 0x00⟩ (.joinCFM 0)).srcAddr ∈ sampleGateway.childrenList →
      handleMessage sampleGateway sampleEnv (mkMessage ⟨0x01, 0x02⟩ ⟨0x81, 0x00⟩ (.joinCFM 0))
        = (sampleGateway, sampleEnv)) ∧
    handleMessage
        (handleMessage sampleGateway sampleEnv
          (mkMessage ⟨0x01, 0x02⟩ ⟨0x81, 0x00⟩ (.joinCFM 0))).1
        (handleMessage sampleGateway sampleEnv
          (mkMessage ⟨0x01, 0x02⟩ ⟨0x81, 0x00⟩ (.joinCFM 0))).2
        (mkMessage ⟨0x01, 0x02⟩ ⟨0x81, 0x00⟩ (.joinCFM 0))
      = handleMessage sampleGateway sampleEnv
          (mkMessage ⟨0x01, 0x02⟩ ⟨0x81, 0x00⟩ (.joinCFM 0)) :=
  ⟨rfl, C5_child_registration_idempotent sampleGateway sampleEnv _ 0 rfl⟩

theorem random_env (a b : Int) (env : Env) :
    ∃ rs, (random a b env).2 = { env with randoms := rs } := by
  unfold random
  split_ifs
  · exact ⟨env.randoms, rfl⟩
  · split
    · exact ⟨env.randoms, rfl⟩
    · exact ⟨_, rfl⟩

/-- The payload and the length that `callRecvRequest` gives depend only on the
callback results and the indeterminate buffer, and its trace grows by the callback. -/
theorem callRecvRequest_spec (fe : ForwardEngine) (env : Env) :
    ∃ rd, callRecvRequest fe env
      = ((callRecvRequest fe env).1, (callRecvRequest fe env).2.1,
         { env with requestData := rd,
                    trace := env.trace ++ (if fe.onRecvRequest then [.onRecvRequest] else []) }) := by
  unfold callRecvRequest
  cases hcb : fe.onRecvRequest with
  | false => exact ⟨env.requestData, by simp⟩
  | true =>
    cases h : env.requestData with
    | nil => exact ⟨[], by simp⟩
    | cons d rest => exact ⟨rest, by simp⟩

/-- The actions of `replyToParent`, in order: the back-off sleep, the callback when
one is set, one NodeReply to the parent. -/
theorem replyToParent_trace (fe : ForwardEngine) (env : Env) (seqNum : Nat) :
    ∃ (dataLength : Nat) (data : List Nat),
      (replyToParent fe env seqNum).2.trace
        = env.trace ++ [.sleepForMillis (replyToParent fe env seqNum).1]
          ++ (if fe.onRecvRequest then [.onRecvRequest] else [])
          ++ [.send (mkMessage fe.myAddr fe.myParent.parentAddr
                (.nodeReply seqNum dataLength data)) fe.myParent.parentAddr] ∧
      (replyToParent fe env seqNum).2.intBits = env.intBits ∧
      (fe.onRecvRequest = true → ∀ d n rest, env.requestData = (d, n) :: rest →
          data = d ∧ dataLength = n % 256) := by
  unfold replyToParent
  obtain ⟨rs, h1⟩ := random_env (MIN_BACKOFF_TIME : Int) (toLong fe.maxBackoffTime) env
  rcases hr : random (MIN_BACKOFF_TIME : Int) (toLong fe.maxBackoffTime) env with ⟨r, env1⟩
  rw [hr] at h1
  dsimp only at h1 ⊢
  subst h1
  obtain ⟨rd, h2⟩ := callRecvRequest_spec fe (sleepForMillis (toULong r) { env with randoms := rs })
  refine ⟨(callRecvRequest fe (sleepForMillis (toULong r) { env with randoms := rs })).2.1,
    (callRecvRequest fe (sleepForMillis (toULong r) { env with randoms := rs })).1, ?_, ?_, ?_⟩
  · rw [h2]
    simp [send, sleepForMillis]
  · rw [h2]
    rfl
  · intro hcb d n rest hd
    simp [callRecvRequest, hcb, sleepForMillis, hd]


theorem forwardToChildren_trace (fe : ForwardEngine) (env : Env) (seqNum backoff : Nat) :
    ∃ backoff2 : Nat,
      (forwardToChildren fe env seqNum backoff).trace
        = env.trace ++
          (if fe.numChildren > 0 then
            [.sleepForMillis backoff2,
             .send (mkMessage fe.myAddr BROADCAST_ADDR (.gatewayRequest seqNum fe.gatewayReqTime
                (cappedChildBackoff env.intBits fe.numChildren fe.gatewayReqTime))) BROADCAST_ADDR]
          else []) := by
  unfold forwardToChildren
  by_cases hc : fe.numChildren > 0
  · simp only [hc, if_true]
    obtain ⟨rs, h1⟩ := random_env (toLong (sub32 fe.maxBackoffTime backoff))
      (toLong (add32 (sub32 fe.maxBackoffTime backoff) fe.maxBackoffTime)) env
    rcases hr : random (toLong (sub32 fe.maxBackoffTime backoff))
      (toLong (add32 (sub32 fe.maxBackoffTime backoff) fe.maxBackoffTime)) env with ⟨r, env1⟩
    rw [hr] at h1
    dsimp only at h1 ⊢
    subst h1
    exact ⟨toULong r, by simp [send, sleepForMillis]⟩
  · exact ⟨0, by simp [hc]⟩

theorem scheduleReceiving_trace (receivingPeriodStart : Nat) (fe : ForwardEngine) (env : Env) :
    ∃ endTime : Nat,
      (scheduleReceiving receivingPeriodStart fe env).2.trace
        = env.trace ++
          (if fe.firstGatewayContact = false then
            [.writeAllowReceiving true, .rtcAlarm, .rtcSquareWaveNone,
             .rtcSetAlarmMinutes endTime, .noInterrupts, .attachInterrupt]
          else []) := by
  unfold scheduleReceiving
  cases hf : fe.firstGatewayContact with
  | false => exact ⟨_, by simp [hf]; rfl⟩
  | true => exact ⟨0, by simp [hf]⟩

/-- The actions of an accepted GatewayRequest, in order: the back-off sleep, the
callback when one is set, the NodeReply to the parent, with children a second sleep
and the re-broadcast request with the capped budget, and on the first contact in the
RTC mode the alarm set-up. -/
theorem acceptGatewayRequest_trace (fe : ForwardEngine) (env : Env)
    (seqNum nextReqTime childBackoffTime : Nat) :
    ∃ (backoff backoff2 endTime dataLength : Nat) (data : List Nat),
      (acceptGatewayRequest fe env seqNum nextReqTime childBackoffTime).2.trace
        = env.trace ++ [.sleepForMillis backoff]
          ++ (if fe.onRecvRequest then [.onRecvRequest] else [])
          ++ [.send (mkMessage fe.myAddr fe.myParent.parentAddr
                (.nodeReply seqNum dataLength data)) fe.myParent.parentAddr]
          ++ (if fe.numChildren > 0 then
                [.sleepForMillis backoff2,
                 .send (mkMessage fe.myAddr BROADCAST_ADDR (.gatewayRequest seqNum nextReqTime
                    (cappedChildBackoff env.intBits fe.numChildren nextReqTime))) BROADCAST_ADDR]
              else [])
          ++ (if fe.sleepMode = SleepMode.SLEEP_RTC_INTERRUPT ∧ fe.firstGatewayContact = false then
                [.writeAllowReceiving true, .rtcAlarm, .rtcSquareWaveNone,
                 .rtcSetAlarmMinutes endTime, .noInterrupts, .attachInterrupt]
              else []) ∧
      (fe.onRecvRequest = true → ∀ d n rest, env.requestData = (d, n) :: rest →
          data = d ∧ dataLength = n % 256) := by
  unfold acceptGatewayRequest
  dsimp only
  obtain ⟨dataLength, data, h1, hbits, hdata⟩ := replyToParent_trace
    { fe with myParent := { fe.myParent with requireChecking := false,
                                             lastAliveTime := getTimeMillis env },
              maxBackoffTime := childBackoffTime } env seqNum
  rcases hr : replyToParent
    { fe with myParent := { fe.myParent with requireChecking := false,
                                             lastAliveTime := getTimeMillis env },
              maxBackoffTime := childBackoffTime } env seqNum with ⟨backoff, env1⟩
  rw [hr] at h1 hbits
  dsimp only at h1 hbits hdata ⊢
  obtain ⟨backoff2, h2⟩ := forwardToChildren_trace
    { fe with myParent := { fe.myParent with requireChecking := false,
                                             lastAliveTime := getTimeMillis env },
              maxBackoffTime := childBackoffTime, gatewayReqTime := nextReqTime }
    env1 seqNum backoff
  dsimp only at h2
  rw [hbits] at h2
  by_cases hm : fe.sleepMode = SleepMode.SLEEP_RTC_INTERRUPT
  · obtain ⟨endTime, h3⟩ := scheduleReceiving_trace env.rtcNow
      { fe with myParent := { fe.myParent with requireChecking := false,
                                               lastAliveTime := getTimeMillis env },
                maxBackoffTime := childBackoffTime, gatewayReqTime := nextReqTime }
      (forwardToChildren
        { fe with myParent := { fe.myParent with requireChecking := false,
                                                 lastAliveTime := getTimeMillis env },
                  maxBackoffTime := childBackoffTime, gatewayReqTime := nextReqTime }
        env1 seqNum backoff)
    refine ⟨backoff, backoff2, endTime, dataLength, data, ?_, hdata⟩
    dsimp only at h3
    rw [if_pos hm, h3, h2, h1]
    simp [hm]
  · refine ⟨backoff, backoff2, 0, dataLength, data, ?_, hdata⟩
    rw [if_neg hm, h2, h1]
    simp [hm]

theorem cappedChildBackoff_le (intBits numChildren gatewayReqTime : Nat) :
    cappedChildBackoff intBits numChildren gatewayReqTime ≤ gatewayReqTime := by
  unfold cappedChildBackoff
  dsimp only
  split_ifs with h
  · exact le_refl _
  · omega


/-- C6: in every GatewayRequest that a step sends, the child back-off budget is at
most the request interval of the same message, whatever the child count and the
interval are; this holds for the request a gateway originates at the end of an
iteration and for everything sent while handling a received message, the
re-broadcast of a relaying node included. The cap itself never exceeds the interval,
whatever `numChildren * 3000` evaluates to. -/
theorem C6_child_budget_capped (fe : ForwardEngine) (env : Env) (msg : GenericMessage) :
    (∃ out, (gatewayTick fe env).2.trace = env.trace ++ out ∧
      ∀ m d s i b, Action.send m d ∈ out → m.body = .gatewayRequest s i b → b ≤ i) ∧
    (∃ out, (handleMessage fe env msg).2.trace = env.trace ++ out ∧
      ∀ m d s i b, Action.send m d ∈ out → m.body = .gatewayRequest s i b → b ≤ i) ∧
    (∀ intBits numChildren interval : Nat,
      cappedChildBackoff intBits numChildren interval ≤ interval) := by
  refine ⟨?_, ?_, cappedChildBackoff_le⟩
  · unfold gatewayTick
    dsimp only
    split_ifs with hdue
    · refine ⟨_, rfl, ?_⟩
      intro m d s i b hmem hbody
      simp only [List.mem_singleton, Action.send.injEq] at hmem
      obtain ⟨rfl, _⟩ := hmem
      simp only [mkMessage, Body.gatewayRequest.injEq] at hbody
      obtain ⟨_, rfl, rfl⟩ := hbody
      exact cappedChildBackoff_le _ _ _
    · exact ⟨[], by simp, by simp⟩
  · unfold handleMessage
    dsimp only
    cases hb : msg.body with
    | join =>
      dsimp only
      split_ifs
      · exact ⟨[], by simp, by simp⟩
      · obtain ⟨rs, h1⟩ := random_env (MIN_BACKOFF_TIME : Int) (MAX_JOIN_ACK_BACKOFF_TIME : Int) env
        rcases hr : random (MIN_BACKOFF_TIME : Int) (MAX_JOIN_ACK_BACKOFF_TIME : Int) env
          with ⟨r, env1⟩
        rw [hr] at h1
        dsimp only at h1 ⊢
        subst h1
        refine ⟨[.sleepForMillis (toULong r),
          .send (mkMessage fe.myAddr msg.srcAddr (.joinAck fe.hopsToGateway)) msg.srcAddr],
          by simp [send, sleepForMillis], ?_⟩
        intro m d s i b hmem hbody
        simp only [List.mem_cons, List.mem_singleton, Action.send.injEq, List.not_mem_nil,
          or_false, false_or, reduceCtorEq] at hmem
        obtain ⟨rfl, _⟩ := hmem
        simp [mkMessage] at hbody
    | joinCFM depth =>
      dsimp only
      split_ifs <;> exact ⟨[], by simp, by simp⟩
    | joinAck hops => exact ⟨[], by simp, by simp⟩
    | checkAlive depth => exact ⟨[], by simp, by simp⟩
    | replyAlive => exact ⟨[], by simp, by simp⟩
    | gatewayRequest seqNum nextReqTime childBackoffTime =>
      dsimp only
      split_ifs
      · exact ⟨[], by simp, by simp⟩
      · exact ⟨[], by simp, by simp⟩
      · obtain ⟨backoff, backoff2, endTime, dataLength, data, htrace, _⟩ :=
          acceptGatewayRequest_trace fe env seqNum nextReqTime childBackoffTime
        refine ⟨[.sleepForMillis backoff] ++ ((if fe.onRecvRequest then [.onRecvRequest] else [])
          ++ ([.send (mkMessage fe.myAddr fe.myParent.parentAddr
                (.nodeReply seqNum dataLength data)) fe.myParent.parentAddr]
          ++ ((if fe.numChildren > 0 then
                [.sleepForMillis backoff2,
                 .send (mkMessage fe.myAddr BROADCAST_ADDR (.gatewayRequest seqNum nextReqTime
                    (cappedChildBackoff env.intBits fe.numChildren nextReqTime))) BROADCAST_ADDR]
              else [])
          ++ (if fe.sleepMode = SleepMode.SLEEP_RTC_INTERRUPT ∧ fe.firstGatewayContact = false then
                [.writeAllowReceiving true, .rtcAlarm, .rtcSquareWaveNone,
                 .rtcSetAlarmMinutes endTime, .noInterrupts, .attachInterrupt]
              else [])))),
          by rw [htrace]; simp only [List.append_assoc], ?_⟩
        intro m d s i b hmem hbody
        simp only [List.mem_append, List.mem_cons, List.mem_singleton, List.not_mem_nil,
          or_false] at hmem
        rcases hmem with hmem | hmem | hmem | hmem | hmem
        · simp at hmem
        · split_ifs at hmem <;> simp at hmem
        · simp only [Action.send.injEq] at hmem
          obtain ⟨rfl, _⟩ := hmem
          simp [mkMessage] at hbody
        · split_ifs at hmem
          · simp only [List.mem_cons, List.mem_singleton, Action.send.injEq, List.not_mem_nil,
              or_false, false_or, reduceCtorEq] at hmem
            obtain ⟨rfl, _⟩ := hmem
            simp only [mkMessage, Body.gatewayRequest.injEq] at hbody
            obtain ⟨_, rfl, rfl⟩ := hbody
            exact cappedChildBackoff_le _ _ _
          · simp at hmem
        · split_ifs at hmem <;> simp at hmem
    | nodeReply seqNum dataLength data =>
      dsimp only
      split_ifs
      · exact ⟨[.onRecvResponse data dataLength msg.srcAddr], by simp, by simp⟩
      · exact ⟨[], by simp, by simp⟩
      · obtain ⟨rs, h1⟩ := random_env (MIN_BACKOFF_TIME : Int) (toLong fe.maxBackoffTime) env
        rcases hr : random (MIN_BACKOFF_TIME : Int) (toLong fe.maxBackoffTime) env with ⟨r, env1⟩
        rw [hr] at h1
        dsimp only at h1 ⊢
        subst h1
        refine ⟨[.sleepForMillis (toULong r),
          .send (mkMessage msg.srcAddr fe.myParent.parentAddr
            (.nodeReply seqNum dataLength data)) fe.myParent.parentAddr],
          by simp [send, sleepForMillis], ?_⟩
        intro m d s i b hmem hbody
        simp only [List.mem_cons, List.mem_singleton, Action.send.injEq, List.not_mem_nil,
          or_false, false_or, reduceCtorEq] at hmem
        obtain ⟨rfl, _⟩ := hmem
        simp [mkMessage] at hbody


theorem foldAcks_no_path (seed : ParentInfo) (msgs : List GenericMessage)
    (h : ∀ m ∈ msgs, hasPath m = false) : foldAcks seed msgs = seed := by
  induction msgs with
  | nil => rfl
  | cons m l ih =>
    have hstep : foldAcks seed (m :: l) = foldAcks (joinSwitch seed m) l := rfl
    rw [hstep, joinSwitch_no_path seed m (h m (by simp))]
    exact ih (fun x hx => h x (List.mem_cons_of_mem _ hx))

/-- One call of `join()` on an Unjoined node returns when the fuel covers the script;
its trace starts with the Join beacon; when it returns false the node is unchanged
and the beacon is all it sent; and it returns false when the parent record names the
node itself and no message received in the window is a JoinAck with a path. -/
theorem join_attempt (fuel : Nat) (fe : ForwardEngine) (env : Env)
    (hs : fe.state = INIT) (hf : env.inbox.length + 11 ≤ fuel) :
    ∃ (b : Bool) (fe1 : ForwardEngine) (env1 : Env) (k : Nat),
      join fuel fe env = some (b, fe1, env1) ∧
      k ≤ env.inbox.length ∧ env1.inbox = env.inbox.drop k ∧
      (∃ rest, env1.trace
        = env.trace ++ [.send (mkMessage fe.myAddr BROADCAST_ADDR .join) BROADCAST_ADDR] ++ rest) ∧
      (b = false → fe1 = fe ∧ env1.trace
        = env.trace ++ [.send (mkMessage fe.myAddr BROADCAST_ADDR .join) BROADCAST_ADDR]) ∧
      (fe.myParent.parentAddr = fe.myAddr →
        (∀ m ∈ (env.inbox.take k).filterMap RecvEvent.msg, hasPath m = false) → b = false) := by
  have hterm := joinLoop_terminates
    (getTimeMillis (send (mkMessage fe.myAddr BROADCAST_ADDR .join) BROADCAST_ADDR env))
    env.inbox fuel fe.myParent (send (mkMessage fe.myAddr BROADCAST_ADDR .join) BROADCAST_ADDR env)
    rfl hf
  cases hl : joinLoop fuel
      (getTimeMillis (send (mkMessage fe.myAddr BROADCAST_ADDR .join) BROADCAST_ADDR env))
      fe.myParent (send (mkMessage fe.myAddr BROADCAST_ADDR .join) BROADCAST_ADDR env) with
  | none => simp [hl] at hterm
  | some res =>
    obtain ⟨cand, env2⟩ := res
    obtain ⟨k, hk, hdrop, hbest, henv, _⟩ := joinLoop_result _ _ _ _ _ _ hl
    dsimp only [send] at hk hdrop hbest henv
    have hs2 : ¬ fe.state ≠ INIT := by simp [hs]
    have hjoin : join fuel fe env
        = (if cand.parentAddr.b0 ≠ fe.myAddr.b0 ∨ cand.parentAddr.b1 ≠ fe.myAddr.b1 then
            some (true,
              { fe with myParent := { cand with
                          lastAliveTime := getTimeMillis (send (mkMessage fe.myAddr cand.parentAddr
                            (.joinCFM fe.numChildren)) cand.parentAddr env2),
                          requireChecking := false },
                        hopsToGateway := (cand.hopsToGateway + 1) % 256 },
              send (mkMessage fe.myAddr cand.parentAddr (.joinCFM fe.numChildren))
                cand.parentAddr env2)
          else some (false, fe, env2)) := by
      simp only [join, hs2, if_false, hl]
    have htr : env2.trace
        = env.trace ++ [.send (mkMessage fe.myAddr BROADCAST_ADDR .join) BROADCAST_ADDR] := by
      rw [henv]
    by_cases hc : cand.parentAddr.b0 ≠ fe.myAddr.b0 ∨ cand.parentAddr.b1 ≠ fe.myAddr.b1
    · refine ⟨true, _, _, k, hjoin.trans (if_pos hc), hk, hdrop, ?_, ?_, ?_⟩
      · exact ⟨[.send (mkMessage fe.myAddr cand.parentAddr (.joinCFM fe.numChildren))
          cand.parentAddr], by simp [send, htr]⟩
      · intro h
        exact absurd h (by simp)
      · intro hp hno
        exfalso
        rw [hbest, foldAcks_no_path _ _ hno, hp] at hc
        simp at hc
    · exact ⟨false, fe, env2, k, hjoin.trans (if_neg hc), hk, hdrop, ⟨[], by simp [htr]⟩,
        fun _ => ⟨rfl, htr⟩, fun _ _ => rfl⟩

/-- C10: `join()` on an Unjoined node whose parent record names the node itself
returns; and when none of the messages received in the discovery window is a JoinAck
with a path, it returns false, leaves the node unchanged (parent record, hop count,
state Unjoined), sends the Join beacon and nothing else (no JoinConfirm). The
joining loop of `run()` then sleeps 5000 ms and calls `join()` again with the same
Unjoined node: that second call returns too, its beacon follows the sleep in the
trace, and the loop ends Joined with its result when it returns true and sleeps
5000 ms once more when it returns false. -/
theorem C10_join_fails_without_path (attempts fuel : Nat) (fe : ForwardEngine) (env : Env)
    (hs : fe.state = INIT) (hp : fe.myParent.parentAddr = fe.myAddr)
    (hf : env.inbox.length + 11 ≤ fuel) :
    ∃ (b : Bool) (fe1 : ForwardEngine) (env1 : Env) (k : Nat),
      join fuel fe env = some (b, fe1, env1) ∧
      k ≤ env.inbox.length ∧ env1.inbox = env.inbox.drop k ∧
      ((∀ m ∈ (env.inbox.take k).filterMap RecvEvent.msg, hasPath m = false) →
        b = false ∧ fe1 = fe ∧ fe1.state = INIT ∧
        env1.trace = env.trace ++ [.send (mkMessage fe.myAddr BROADCAST_ADDR .join) BROADCAST_ADDR] ∧
        runJoinLoop (attempts + 1) fuel fe env
          = runJoinLoop attempts fuel fe (sleepForMillis 5000 env1) ∧
        (sleepForMillis 5000 env1).trace
          = env.trace ++ [.send (mkMessage fe.myAddr BROADCAST_ADDR .join) BROADCAST_ADDR,
                          .sleepForMillis 5000] ∧
        ∃ (b2 : Bool) (fe2 : ForwardEngine) (env2 : Env),
          join fuel fe (sleepForMillis 5000 env1) = some (b2, fe2, env2) ∧
          (∃ rest, env2.trace
            = env.trace ++ [.send (mkMessage fe.myAddr BROADCAST_ADDR .join) BROADCAST_ADDR,
                .sleepForMillis 5000,
                .send (mkMessage fe.myAddr BROADCAST_ADDR .join) BROADCAST_ADDR] ++ rest) ∧
          (b2 = true →
            runJoinLoop (attempts + 3) fuel fe env = some ({ fe2 with state := JOINED }, env2)) ∧
          (b2 = false → fe2 = fe ∧
            runJoinLoop (attempts + 2) fuel fe env
              = runJoinLoop attempts fuel fe (sleepForMillis 5000 env2))) := by
  obtain ⟨b, fe1, env1, k, hjoin, hk, hdrop, _, hfalse, hno⟩ := join_attempt fuel fe env hs hf
  refine ⟨b, fe1, env1, k, hjoin, hk, hdrop, fun hnone => ?_⟩
  have hb : b = false := hno hp hnone
  obtain ⟨hfe, htr⟩ := hfalse hb
  subst hb
  subst hfe
  have hstep : ∀ n, runJoinLoop (n + 1) fuel fe1 env
      = runJoinLoop n fuel fe1 (sleepForMillis 5000 env1) := by
    intro n
    simp only [runJoinLoop, hs, if_true, hjoin]
  have hlen : (sleepForMillis 5000 env1).inbox.length + 11 ≤ fuel := by
    have h1 : (sleepForMillis 5000 env1).inbox = env.inbox.drop k := by
      simp only [sleepForMillis]
      exact hdrop
    rw [h1, List.length_drop]
    omega
  obtain ⟨b2, fe2, env2, _, hjoin2, _, _, ⟨rest, hrest⟩, hfalse2, _⟩ :=
    join_attempt fuel fe1 (sleepForMillis 5000 env1) hs hlen
  have htr2 : (sleepForMillis 5000 env1).trace
      = env.trace ++ [.send (mkMessage fe1.myAddr BROADCAST_ADDR .join) BROADCAST_ADDR,
                      .sleepForMillis 5000] := by
    simp [sleepForMillis, htr]
  refine ⟨rfl, rfl, hs, htr, hstep attempts, htr2, b2, fe2, env2, hjoin2, ⟨rest, ?_⟩, ?_, ?_⟩
  · rw [hrest, htr2]
    simp
  · intro hb2
    subst hb2
    rw [hstep (attempts + 2)]
    simp only [runJoinLoop, hs, if_true, hjoin2]
    simp [JOINED, INIT]
  · intro hb2
    subst hb2
    obtain ⟨hfe2, _⟩ := hfalse2 rfl
    refine ⟨hfe2, ?_⟩
    rw [hstep (attempts + 1)]
    simp only [runJoinLoop, hs, if_true, hjoin2]
    rw [hfe2]

/-- C10 witness: the node 0x01,0x02 hears nothing in its first discovery window and
the JoinAck of the gateway in the second: `run()` sends the beacon, sleeps 5000 ms,
sends the beacon again, confirms to the gateway and is Joined. -/
theorem C10_join_fails_without_path_witness :
    sampleUnjoined.state = INIT ∧ sampleUnjoined.myParent.parentAddr = sampleUnjoined.myAddr ∧
    sampleEnvLateAck.inbox.length + 11 ≤ 22 ∧
    (join 22 sampleUnjoined sampleEnvLateAck).map (fun r => (r.1, r.2.1, r.2.2.trace))
      = some (false, sampleUnjoined,
          [.send (mkMessage ⟨0x01, 0x02⟩ BROADCAST_ADDR .join) BROADCAST_ADDR]) ∧
    (runJoinLoop 3 22 sampleUnjoined sampleEnvLateAck).map (fun r => (r.1.state, r.2.trace))
      = some (JOINED,
          [.send (mkMessage ⟨0x01, 0x02⟩ BROADCAST_ADDR .join) BROADCAST_ADDR,
           .sleepForMillis 5000,
           .send (mkMessage ⟨0x01, 0x02⟩ BROADCAST_ADDR .join) BROADCAST_ADDR,
           .send (mkMessage ⟨0x01, 0x02⟩ ⟨0x81, 0x00⟩ (.joinCFM 0)) ⟨0x81, 0x00⟩]) ∧
    ∃ (b : Bool) (fe1 : ForwardEngine) (env1 : Env) (k : Nat),
      join 22 sampleUnjoined sampleEnvLateAck = some (b, fe1, env1) ∧
      k ≤ sampleEnvLateAck.inbox.length ∧ env1.inbox = sampleEnvLateAck.inbox.drop k :=
  ⟨rfl, rfl, by decide, by decide, by decide,
    (C10_join_fails_without_path 0 22 sampleUnjoined sampleEnvLateAck rfl rfl (by decide)).imp
      fun _ h => h.imp fun _ h => h.imp fun _ h => h.imp fun _ h => ⟨h.1, h.2.1, h.2.2.1⟩⟩

/-- The value that `random(min, max)` returns: in `[min, max)` when `min < max`, and
`min` otherwise. -/
theorem random_range (a b : Int) (env : Env) :
    (a < b → a ≤ (random a b env).1 ∧ (random a b env).1 < b) ∧
    (¬ a < b → (random a b env).1 = a) := by
  unfold random
  constructor
  · intro hab
    have hn : ¬ a ≥ b := by omega
    simp only [hn, if_false]
    split
    · exact ⟨le_refl _, hab⟩
    · rename_i r rest _
      have h1 : 0 ≤ (r : Int) % (b - a) := Int.emod_nonneg _ (by omega)
      have h2 : (r : Int) % (b - a) < b - a := Int.emod_lt_of_pos _ (by omega)
      dsimp only
      omega
  · intro hab
    have hn : a ≥ b := by omega
    simp [hn]

theorem toULong_of_nonneg (r : Int) (h0 : 0 ≤ r) (h1 : r < 2 ^ 32) : ((toULong r : Nat) : Int) = r := by
  unfold toULong
  rw [Int.emod_eq_of_lt h0 h1]
  exact Int.toNat_of_nonneg h0

theorem addr_ne_iff (a b : Addr) : (a.b0 ≠ b.b0 ∨ a.b1 ≠ b.b1) ↔ a ≠ b := by
  cases a; cases b
  simp only [ne_eq, Addr.mk.injEq]
  tauto

/-- C11: a GatewayRequest whose source address is not the address of the current
parent changes neither the node (lastAliveTime, maxBackoffTime, gatewayReqTime and
every other field) nor the environment: nothing is sent, no sleep is recorded, the
callback is not invoked, no random value is drawn and the clock is not advanced. -/
theorem C11_foreign_request_discarded (fe : ForwardEngine) (env : Env) (msg : GenericMessage)
    (seqNum nextReqTime childBackoffTime : Nat)
    (hb : msg.body = .gatewayRequest seqNum nextReqTime childBackoffTime)
    (hsrc : msg.srcAddr ≠ fe.myParent.parentAddr) :
    handleMessage fe env msg = (fe, env) := by
  have h := (addr_ne_iff _ _).mpr hsrc
  simp only [handleMessage, hb, h, if_true]

/-- C11 witness: the node 0x01,0x02 with parent 0x81,0x00 receives the request of the
stranger 0x05,0x06. -/
theorem C11_foreign_request_discarded_witness :
    ({ sampleRequest with srcAddr := ⟨0x05, 0x06⟩ } : GenericMessage).body
      = .gatewayRequest 1 60000 3000 ∧
    ({ sampleRequest with srcAddr := ⟨0x05, 0x06⟩ } : GenericMessage).srcAddr
      ≠ sampleJoined.myParent.parentAddr ∧
    handleMessage sampleJoined sampleEnvWithData { sampleRequest with srcAddr := ⟨0x05, 0x06⟩ }
      = (sampleJoined, sampleEnvWithData) :=
  ⟨rfl, by decide,
    C11_foreign_request_discarded sampleJoined sampleEnvWithData
      { sampleRequest with srcAddr := ⟨0x05, 0x06⟩ } 1 60000 3000 rfl (by decide)⟩

/-- The `unsigned long` difference is the difference of the two counters modulo
`2 ^ 32`. -/
theorem sub32_eq_emod (a b : Nat) : ((sub32 a b : Nat) : Int) = ((a : Int) - (b : Int)) % 2 ^ 32 := by
  unfold sub32
  norm_num
  omega

/-- At the end of an iteration a gateway broadcasts a GatewayRequest exactly when
`(now - lastReqTime) mod 2 ^ 32` is at least the configured interval, whatever the
two counters are (wrapped or not). When it is, seqNum is incremented (as a byte),
lastReqTime becomes now, and the one message sent is the broadcast of the new
sequence number, the configured interval and the budget that `cappedChildBackoff`
computes; otherwise the node and the environment are unchanged. -/
theorem gatewayTick_when_due (fe : ForwardEngine) (env : Env) :
    ((fe.gatewayReqTime : Int) ≤ ((env.now : Int) - (fe.lastReqTime : Int)) % 2 ^ 32 →
      gatewayTick fe env
        = ({ fe with seqNum := (fe.seqNum + 1) % 256, lastReqTime := env.now },
           { env with trace := env.trace ++
               [.send (mkMessage fe.myAddr BROADCAST_ADDR
                  (.gatewayRequest ((fe.seqNum + 1) % 256) fe.gatewayReqTime
                    (cappedChildBackoff env.intBits fe.numChildren fe.gatewayReqTime)))
                  BROADCAST_ADDR] })) ∧
    (¬ (fe.gatewayReqTime : Int) ≤ ((env.now : Int) - (fe.lastReqTime : Int)) % 2 ^ 32 →
      gatewayTick fe env = (fe, env)) := by
  have hsub := sub32_eq_emod env.now fe.lastReqTime
  constructor
  · intro h
    have hdue : sub32 (getTimeMillis env) fe.lastReqTime ≥ fe.gatewayReqTime := by
      unfold getTimeMillis
      omega
    simp only [gatewayTick, hdue, if_true]
    rfl
  · intro h
    have hdue : ¬ sub32 (getTimeMillis env) fe.lastReqTime ≥ fe.gatewayReqTime := by
      unfold getTimeMillis
      omega
    simp only [gatewayTick, hdue, if_false]

/-- The gateway branch when the clock has wrapped (now = 500, lastReqTime = 2 ^ 32 - 1000), the
interval is 1500 ms: the request is due. -/
theorem gatewayTick_when_due_wrapped :
    gatewayTick { sampleGateway with gatewayReqTime := 1500, lastReqTime := 4294966296 }
        { sampleEnv with now := 500 }
      = ({ sampleGateway with gatewayReqTime := 1500, lastReqTime := 500, seqNum := 1 },
         { sampleEnv with
           now := 500,
           trace := [.send (mkMessage ⟨0x81, 0x00⟩ BROADCAST_ADDR (.gatewayRequest 1 1500 1500))
                      BROADCAST_ADDR] }) ∧
    gatewayTick { sampleGateway with gatewayReqTime := 1501, lastReqTime := 4294966296 }
        { sampleEnv with now := 500 }
      = ({ sampleGateway with gatewayReqTime := 1501, lastReqTime := 4294966296 },
         { sampleEnv with now := 500 }) :=
  ⟨((gatewayTick_when_due
        { sampleGateway with gatewayReqTime := 1500, lastReqTime := 4294966296 }
        { sampleEnv with now := 500 }).1 (by decide)).trans (by decide),
   (gatewayTick_when_due
        { sampleGateway with gatewayReqTime := 1501, lastReqTime := 4294966296 }
        { sampleEnv with now := 500 }).2 (by decide)⟩

theorem replyToParent_fst (fe : ForwardEngine) (env : Env) (seqNum : Nat) :
    (replyToParent fe env seqNum).1
      = toULong (random (MIN_BACKOFF_TIME : Int) (toLong fe.maxBackoffTime) env).1 := by
  unfold replyToParent
  rcases random (MIN_BACKOFF_TIME : Int) (toLong fe.maxBackoffTime) env with ⟨r, env1⟩
  rfl

theorem toLong_cases (B : Nat) (hB : B < 4294967296) :
    (B < 2147483648 → toLong B = (B : Int)) ∧
    (2147483648 ≤ B → toLong B = (B : Int) - 4294967296) := by
  unfold toLong
  have hmod : B % 2 ^ 32 = B := Nat.mod_eq_of_lt (by norm_num; exact hB)
  rw [hmod]
  constructor
  · intro h
    rw [if_pos (by norm_num; exact h)]
  · intro h
    rw [if_neg (by norm_num; omega)]
    norm_num

/-- The back-off before the reply, for an adopted budget `B`: at least 100; below
`B` when `100 < B < 2 ^ 31`; and 100 when `B <= 100` or `B >= 2 ^ 31` (a budget that
is negative as a `long`). -/
theorem reply_backoff_range (B : Nat) (env : Env) (hB : B < 2 ^ 32) :
    100 ≤ toULong (random (MIN_BACKOFF_TIME : Int) (toLong B) env).1 ∧
    (100 < B → B < 2 ^ 31 →
      toULong (random (MIN_BACKOFF_TIME : Int) (toLong B) env).1 < B) ∧
    (B ≤ 100 ∨ 2 ^ 31 ≤ B →
      toULong (random (MIN_BACKOFF_TIME : Int) (toLong B) env).1 = 100) := by
  have hB2 : B < 4294967296 := by norm_num at hB; exact hB
  obtain ⟨hlt, hge⟩ := random_range (MIN_BACKOFF_TIME : Int) (toLong B) env
  obtain ⟨hsmall, hbig⟩ := toLong_cases B hB2
  have hmin : ((MIN_BACKOFF_TIME : Nat) : Int) = 100 := rfl
  rw [hmin] at hlt hge ⊢
  have h100 : toULong 100 = 100 := by decide
  by_cases hcase : (100 : Int) < toLong B
  · obtain ⟨h1, h2⟩ := hlt hcase
    have hBlt : B < 2147483648 := by
      by_contra hcon
      have := hbig (by omega)
      omega
    have hl := hsmall hBlt
    rw [hl] at h2 hcase
    have hcast := toULong_of_nonneg (random 100 (toLong B) env).1 (by omega)
      (by norm_num; omega)
    refine ⟨by omega, fun _ _ => by omega, fun h => ?_⟩
    norm_num at h
    omega
  · have h := hge hcase
    rw [h, h100]
    refine ⟨le_refl _, fun h1 h2 => ?_, fun _ => rfl⟩
    norm_num at h2
    have := hsmall h2
    omega
theorem sub32_add32_cancel (a x : Nat) : sub32 (add32 a x) a = x % 2 ^ 32 := by
  unfold sub32 add32
  norm_num
  omega

/-- The node after `scheduleReceiving`: the two schedule values are set and the first
contact is recorded. -/
theorem scheduleReceiving_fst (receivingPeriodStart : Nat) (fe : ForwardEngine) (env : Env) :
    (scheduleReceiving receivingPeriodStart fe env).1
      = { fe with
          nextGatewayReqTime := add32 receivingPeriodStart (fe.gatewayReqTime / 1000),
          receivingPeriod :=
            sub32 (if fe.gatewayReqTime ≤ 1200000 then
                add32 receivingPeriodStart (fe.gatewayReqTime / 1000 / 2)
              else add32 receivingPeriodStart 600) receivingPeriodStart,
          firstGatewayContact := true } := by
  unfold scheduleReceiving
  cases hf : fe.firstGatewayContact <;> simp [hf]

/-- The fields of the node after an accepted GatewayRequest. -/
theorem acceptGatewayRequest_fields (fe : ForwardEngine) (env : Env)
    (seqNum nextReqTime childBackoffTime : Nat) :
    (acceptGatewayRequest fe env seqNum nextReqTime childBackoffTime).1.maxBackoffTime
      = childBackoffTime ∧
    (acceptGatewayRequest fe env seqNum nextReqTime childBackoffTime).1.gatewayReqTime
      = nextReqTime ∧
    (acceptGatewayRequest fe env seqNum nextReqTime childBackoffTime).1.myParent
      = { fe.myParent with requireChecking := false, lastAliveTime := env.now } ∧
    (fe.sleepMode = SleepMode.SLEEP_RTC_INTERRUPT →
      (acceptGatewayRequest fe env seqNum nextReqTime childBackoffTime).1.receivingPeriod
        = sub32 (if nextReqTime ≤ 1200000 then add32 env.rtcNow (nextReqTime / 1000 / 2)
            else add32 env.rtcNow 600) env.rtcNow ∧
      (acceptGatewayRequest fe env seqNum nextReqTime childBackoffTime).1.nextGatewayReqTime
        = add32 env.rtcNow (nextReqTime / 1000)) := by
  unfold acceptGatewayRequest
  dsimp only
  rcases replyToParent
    { fe with myParent := { fe.myParent with requireChecking := false,
                                             lastAliveTime := getTimeMillis env },
              maxBackoffTime := childBackoffTime } env seqNum with ⟨backoff, env1⟩
  dsimp only
  by_cases hm : fe.sleepMode = SleepMode.SLEEP_RTC_INTERRUPT
  · rw [if_pos hm, scheduleReceiving_fst]
    simp [getTimeMillis]
  · rw [if_neg hm]
    simp [getTimeMillis, hm]

/-- The first action of an accepted GatewayRequest is the back-off sleep, whose
length is drawn by `random(MIN_BACKOFF_TIME, maxBackoffTime)` from the adopted
budget. -/
theorem acceptGatewayRequest_first_sleep (fe : ForwardEngine) (env : Env)
    (seqNum nextReqTime childBackoffTime : Nat) :
    ∃ rest,
      (acceptGatewayRequest fe env seqNum nextReqTime childBackoffTime).2.trace
        = env.trace ++ .sleepForMillis
            (toULong (random (MIN_BACKOFF_TIME : Int) (toLong childBackoffTime) env).1) :: rest := by
  unfold acceptGatewayRequest
  dsimp only
  obtain ⟨dataLength, data, h1, _, _⟩ := replyToParent_trace
    { fe with myParent := { fe.myParent with requireChecking := false,
                                             lastAliveTime := getTimeMillis env },
              maxBackoffTime := childBackoffTime } env seqNum
  have hfst := replyToParent_fst
    { fe with myParent := { fe.myParent with requireChecking := false,
                                             lastAliveTime := getTimeMillis env },
              maxBackoffTime := childBackoffTime } env seqNum
  rcases hr : replyToParent
    { fe with myParent := { fe.myParent with requireChecking := false,
                                             lastAliveTime := getTimeMillis env },
              maxBackoffTime := childBackoffTime } env seqNum with ⟨backoff, env1⟩
  rw [hr] at h1 hfst
  dsimp only at h1 hfst ⊢
  obtain ⟨backoff2, h2⟩ := forwardToChildren_trace
    { fe with myParent := { fe.myParent with requireChecking := false,
                                             lastAliveTime := getTimeMillis env },
              maxBackoffTime := childBackoffTime, gatewayReqTime := nextReqTime }
    env1 seqNum backoff
  dsimp only at h2
  by_cases hm : fe.sleepMode = SleepMode.SLEEP_RTC_INTERRUPT
  · obtain ⟨endTime, h3⟩ := scheduleReceiving_trace env.rtcNow
      { fe with myParent := { fe.myParent with requireChecking := false,
                                               lastAliveTime := getTimeMillis env },
                maxBackoffTime := childBackoffTime, gatewayReqTime := nextReqTime }
      (forwardToChildren
        { fe with myParent := { fe.myParent with requireChecking := false,
                                                 lastAliveTime := getTimeMillis env },
                  maxBackoffTime := childBackoffTime, gatewayReqTime := nextReqTime }
        env1 seqNum backoff)
    dsimp only at h3
    rw [if_pos hm, h3, h2, h1, hfst]
    simp only [List.append_assoc, List.singleton_append]
    exact ⟨_, rfl⟩
  · rw [if_neg hm, h2, h1, hfst]
    simp only [List.append_assoc, List.singleton_append]
    exact ⟨_, rfl⟩

/-- A GatewayRequest from the parent, received by a node that is not a gateway, is
accepted. -/
theorem handleMessage_accept (fe : ForwardEngine) (env : Env) (msg : GenericMessage)
    (seqNum nextReqTime childBackoffTime : Nat)
    (hb : msg.body = .gatewayRequest seqNum nextReqTime childBackoffTime)
    (hsrc : msg.srcAddr = fe.myParent.parentAddr) (hg : isGateway fe.myAddr = false) :
    handleMessage fe env msg
      = acceptGatewayRequest fe env seqNum nextReqTime childBackoffTime := by
  simp [handleMessage, hb, hsrc, hg]

/-- C12 as stated fails for a budget below the minimum back-off: with the budget
B = 0 (what a gateway without a registered child advertises) the node 0x01,0x02
sleeps 100 ms before replying, so no sleep `b` with `100 <= b <= B` is recorded. -/
theorem C12_counterexample :
    (handleMessage sampleJoined sampleEnvWithData
        { sampleRequest with body := .gatewayRequest 1 60000 0 }).2.trace
      = [.sleepForMillis 100, .onRecvRequest,
         .send (mkMessage ⟨0x01, 0x02⟩ ⟨0x81, 0x00⟩ (.nodeReply 1 2 [0x17, 0x2A])) ⟨0x81, 0x00⟩] ∧
    ¬ (∃ b rest,
        (handleMessage sampleJoined sampleEnvWithData
          { sampleRequest with body := .gatewayRequest 1 60000 0 }).2.trace
          = sampleEnvWithData.trace ++ .sleepForMillis b :: rest ∧ 100 ≤ b ∧ b ≤ 0) := by
  refine ⟨by decide, ?_⟩
  rintro ⟨b, rest, _, h1, h2⟩
  omega

/-- C12 (amended): for a GatewayRequest accepted from the parent with advertised
child back-off budget `B` (an `unsigned long`), the node adopts `B` as its maximum
back-off, and the first thing it does is to sleep a duration `b` with `100 <= b`;
`b <= B` whenever `B >= 100`, and `b < B` whenever `100 < B < 2 ^ 31` (so for
B = 3000 it lies in `[100, 3000)`). -/
theorem C12_reply_backoff_range (fe : ForwardEngine) (env : Env) (msg : GenericMessage)
    (seqNum nextReqTime B : Nat)
    (hb : msg.body = .gatewayRequest seqNum nextReqTime B)
    (hsrc : msg.srcAddr = fe.myParent.parentAddr) (hg : isGateway fe.myAddr = false)
    (hB : B < 2 ^ 32) :
    (handleMessage fe env msg).1.maxBackoffTime = B ∧
    ∃ b rest,
      (handleMessage fe env msg).2.trace = env.trace ++ .sleepForMillis b :: rest ∧
      100 ≤ b ∧ (100 ≤ B → b ≤ B) ∧ (100 < B → B < 2 ^ 31 → b < B) := by
  rw [handleMessage_accept fe env msg seqNum nextReqTime B hb hsrc hg]
  obtain ⟨hmax, _, _, _⟩ := acceptGatewayRequest_fields fe env seqNum nextReqTime B
  obtain ⟨rest, htrace⟩ := acceptGatewayRequest_first_sleep fe env seqNum nextReqTime B
  obtain ⟨h100, hlt, heq⟩ := reply_backoff_range B env hB
  refine ⟨hmax, _, rest, htrace, h100, fun hge => ?_, hlt⟩
  by_cases h1 : 100 < B
  · by_cases h2 : B < 2 ^ 31
    · exact le_of_lt (hlt h1 h2)
    · rw [heq (Or.inr (by omega))]
      exact hge
  · rw [heq (Or.inl (by omega))]
    exact hge

/-- C12 witness: the request with budget 3000 of the gateway 0x81,0x00, accepted by
the node 0x01,0x02. -/
theorem C12_reply_backoff_range_witness :
    sampleRequest.body = .gatewayRequest 1 60000 3000 ∧
    sampleRequest.srcAddr = sampleJoined.myParent.parentAddr ∧
    isGateway sampleJoined.myAddr = false ∧ 3000 < 2 ^ 32 ∧
    (handleMessage sampleJoined sampleEnvWithData sampleRequest).1.maxBackoffTime = 3000 ∧
    ∃ b rest,
      (handleMessage sampleJoined sampleEnvWithData sampleRequest).2.trace
        = sampleEnvWithData.trace ++ .sleepForMillis b :: rest ∧
      100 ≤ b ∧ (100 ≤ 3000 → b ≤ 3000) ∧ (100 < 3000 → 3000 < 2 ^ 31 → b < 3000) :=
  ⟨rfl, rfl, by decide, by decide,
    C12_reply_backoff_range sampleJoined sampleEnvWithData sampleRequest 1 60000 3000
      rfl rfl (by decide) (by decide)⟩

/-- C18: in the mode SLEEP_RTC_INTERRUPT, after a GatewayRequest with advertised
interval `I` ms is accepted, the receiving period is `I / 1000 / 2` seconds (half the
interval, in whole seconds) when `I <= 1200000` and 600 seconds otherwise, and the
next expected request time is the RTC reading taken on receipt plus `I / 1000`
seconds (as a 32-bit `time_t`). -/
theorem C18_receiving_period (fe : ForwardEngine) (env : Env) (msg : GenericMessage)
    (seqNum I childBackoffTime : Nat)
    (hb : msg.body = .gatewayRequest seqNum I childBackoffTime)
    (hsrc : msg.srcAddr = fe.myParent.parentAddr) (hg : isGateway fe.myAddr = false)
    (hmode : fe.sleepMode = SleepMode.SLEEP_RTC_INTERRUPT) (hI : I < 2 ^ 32) :
    (handleMessage fe env msg).1.receivingPeriod = (if I ≤ 1200000 then I / 1000 / 2 else 600) ∧
    (handleMessage fe env msg).1.nextGatewayReqTime = (env.rtcNow + I / 1000) % 2 ^ 32 := by
  rw [handleMessage_accept fe env msg seqNum I childBackoffTime hb hsrc hg]
  obtain ⟨_, _, _, hrtc⟩ := acceptGatewayRequest_fields fe env seqNum I childBackoffTime
  obtain ⟨hperiod, hnext⟩ := hrtc hmode
  refine ⟨?_, by rw [hnext]; rfl⟩
  rw [hperiod]
  norm_num at hI
  split_ifs with h
  · rw [sub32_add32_cancel]
    norm_num
    omega
  · rw [sub32_add32_cancel]
    norm_num

/-- C18 witness: interval 60000 ms at RTC reading 1000 s gives a receiving period of
30 s and the next request at 1060 s. -/
theorem C18_receiving_period_witness :
    sampleRequest.body = .gatewayRequest 1 60000 3000 ∧
    (handleMessage { sampleJoined with sleepMode := .SLEEP_RTC_INTERRUPT }
        { sampleEnvWithData with rtcNow := 1000 } sampleRequest).1.receivingPeriod = 30 ∧
    (handleMessage { sampleJoined with sleepMode := .SLEEP_RTC_INTERRUPT }
        { sampleEnvWithData with rtcNow := 1000 } sampleRequest).1.nextGatewayReqTime = 1060 ∧
    (handleMessage { sampleJoined with sleepMode := .SLEEP_RTC_INTERRUPT }
        { sampleEnvWithData with rtcNow := 1000 } sampleRequest).1.receivingPeriod
      = (if 60000 ≤ 1200000 then 60000 / 1000 / 2 else 600) ∧
    (handleMessage { sampleJoined with sleepMode := .SLEEP_RTC_INTERRUPT }
        { sampleEnvWithData with rtcNow := 1000 } sampleRequest).1.nextGatewayReqTime
      = (({ sampleEnvWithData with rtcNow := 1000 } : Env).rtcNow + 60000 / 1000) % 2 ^ 32 :=
  ⟨rfl, by decide, by decide,
    C18_receiving_period { sampleJoined with sleepMode := .SLEEP_RTC_INTERRUPT }
      { sampleEnvWithData with rtcNow := 1000 } sampleRequest 1 60000 3000
      rfl rfl (by decide) rfl (by decide)⟩

/-- The capped budget is the minimum of `numChildren * 3000` and the interval as long
as the product fits in an `int`. -/
theorem cappedChildBackoff_eq_min (intBits numChildren gatewayReqTime : Nat)
    (hbits : 1 ≤ intBits) (hfit : numChildren * 3000 < 2 ^ (intBits - 1))
    (h32 : numChildren * 3000 < 2 ^ 32) :
    cappedChildBackoff intBits numChildren gatewayReqTime
      = min (numChildren * 3000) gatewayReqTime := by
  have hpow : (2 : Int) ^ intBits = 2 * 2 ^ (intBits - 1) := by
    obtain ⟨k, rfl⟩ : ∃ k, intBits = k + 1 := ⟨intBits - 1, by omega⟩
    simp [pow_succ, mul_comm]
  have hfitZ : ((numChildren : Int) * 3000) < 2 ^ (intBits - 1) := by exact_mod_cast hfit
  have hpos : (0 : Int) < 2 ^ (intBits - 1) := by positivity
  have hwrap : wrapInt intBits ((numChildren : Int) * (MAX_BACKOFF_TIME_FOR_ONE_CHILD : Int))
      = (numChildren : Int) * 3000 := by
    unfold wrapInt MAX_BACKOFF_TIME_FOR_ONE_CHILD
    have h0 : (0 : Int) ≤ (numChildren : Int) * 3000 := by positivity
    rw [Int.emod_eq_of_lt (by push_cast; omega) (by push_cast; rw [hpow]; omega)]
    push_cast
    omega
  have hto : toULong ((numChildren : Int) * 3000) = numChildren * 3000 := by
    have h0 : (0 : Int) ≤ (numChildren : Int) * 3000 := by positivity
    have h1 : ((numChildren : Int) * 3000) < 2 ^ 32 := by exact_mod_cast h32
    have := toULong_of_nonneg _ h0 h1
    exact_mod_cast this
  unfold cappedChildBackoff
  dsimp only
  rw [hwrap, hto]
  split_ifs with h
  · omega
  · omega

/-- What a relaying node sends for an accepted GatewayRequest: with children one
GatewayRequest, broadcast after the NodeReply, that carries the received sequence
number and interval and the capped budget; without children no GatewayRequest. -/
theorem relay_rebroadcast (fe : ForwardEngine) (env : Env)
    (seqNum nextReqTime childBackoffTime : Nat) :
    ∃ pre post,
      (acceptGatewayRequest fe env seqNum nextReqTime childBackoffTime).2.trace
        = env.trace ++ pre ++
          (if fe.numChildren > 0 then
            [.send (mkMessage fe.myAddr BROADCAST_ADDR (.gatewayRequest seqNum nextReqTime
                (cappedChildBackoff env.intBits fe.numChildren nextReqTime))) BROADCAST_ADDR]
          else []) ++ post ∧
      ∀ m dst, Action.send m dst ∈ pre ++ post → m.msgType ≠ MESSAGE_GATEWAY_REQ := by
  obtain ⟨backoff, backoff2, endTime, dataLength, data, htrace, _⟩ :=
    acceptGatewayRequest_trace fe env seqNum nextReqTime childBackoffTime
  refine ⟨[.sleepForMillis backoff] ++ (if fe.onRecvRequest then [.onRecvRequest] else [])
      ++ [.send (mkMessage fe.myAddr fe.myParent.parentAddr
            (.nodeReply seqNum dataLength data)) fe.myParent.parentAddr]
      ++ (if fe.numChildren > 0 then [.sleepForMillis backoff2] else []),
    (if fe.sleepMode = SleepMode.SLEEP_RTC_INTERRUPT ∧ fe.firstGatewayContact = false then
        [.writeAllowReceiving true, .rtcAlarm, .rtcSquareWaveNone,
         .rtcSetAlarmMinutes endTime, .noInterrupts, .attachInterrupt]
      else []), ?_, ?_⟩
  · rw [htrace]
    by_cases hc : fe.numChildren > 0
    · simp [hc]
    · simp [hc]
  · intro m dst hmem
    simp only [List.mem_append, List.mem_cons, List.mem_singleton, List.not_mem_nil,
      or_false] at hmem
    rcases hmem with (((hmem | hmem) | hmem) | hmem) | hmem
    · simp at hmem
    · split_ifs at hmem <;> simp at hmem
    · simp only [Action.send.injEq] at hmem
      obtain ⟨rfl, _⟩ := hmem
      simp [mkMessage, GenericMessage.msgType, MESSAGE_GATEWAY_REQ, MESSAGE_NODE_REPLY]
    · split_ifs at hmem <;> simp at hmem
    · split_ifs at hmem <;> simp at hmem

/-- C17 at a node with eleven children on a board with 16-bit `int`: the node
0x01,0x02 accepts the request seq=1, interval=60000 of its parent and re-broadcasts
it with the child budget 60000, not the 33000 that `11 * 3000` capped at 60000 is:
the `int` product `numChildren * MAX_BACKOFF_TIME_FOR_ONE_CHILD` has wrapped to a
negative value, which is above every interval as an `unsigned long`. -/
theorem C17_budget_wraps_with_eleven_children :
    sampleRelay.numChildren = 11 ∧ sampleEnvWithData.intBits = 16 ∧
    (handleMessage sampleRelay sampleEnvWithData sampleRequest).2.trace
      = [.sleepForMillis 845, .onRecvRequest,
         .send (mkMessage ⟨0x01, 0x02⟩ ⟨0x81, 0x00⟩ (.nodeReply 1 2 [0x17, 0x2A])) ⟨0x81, 0x00⟩,
         .sleepForMillis 2155,
         .send (mkMessage ⟨0x01, 0x02⟩ BROADCAST_ADDR (.gatewayRequest 1 60000 60000))
           BROADCAST_ADDR] ∧
    cappedChildBackoff 16 11 60000 = 60000 ∧ min (11 * 3000) 60000 = 33000 := by
  decide

/-- C20 at six JoinConfirms from six different nodes: the node 0x01,0x02, which had no
child, has numChildren = 6 and six entries in its children list afterwards, more
than MAX_NUM_CHILDREN = 5; `case MESSAGE_JOIN_CFM` never compares with the bound. -/
theorem C20_six_children_registered :
    (handleMessages sampleJoined sampleEnv sampleConfirms).1.numChildren = 6 ∧
    (handleMessages sampleJoined sampleEnv sampleConfirms).1.childrenList.length = 6 ∧
    ¬ (handleMessages sampleJoined sampleEnv sampleConfirms).1.numChildren ≤ MAX_NUM_CHILDREN := by
  decide

/-- One JoinConfirm handled: the node registers the source unless the scan finds it. -/
theorem handleMessage_joinCFM (fe : ForwardEngine) (env : Env) (m : GenericMessage)
    (depth : Nat) (hb : m.body = .joinCFM depth) :
    handleMessage fe env m =
      (if m.srcAddr ∈ fe.childrenList then fe
       else { fe with childrenList := m.srcAddr :: fe.childrenList,
                      numChildren := (fe.numChildren + 1) % 256 }, env) := by
  unfold handleMessage
  simp only [hb]
  by_cases hm : m.srcAddr ∈ fe.childrenList
  · rw [if_pos ((findChild_iff_mem _ _).mpr hm), if_pos hm]
  · have hf : ¬ findChild fe.childrenList m.srcAddr = true := fun h =>
      hm ((findChild_iff_mem _ _).mp h)
    rw [if_neg hf, if_neg hm]

/-- The children list after a sequence of JoinConfirms, from any list without
duplicates whose length the counter holds modulo 256. -/
theorem handleMessages_children (msgs : List GenericMessage) :
    ∀ (fe : ForwardEngine) (env : Env),
      (∀ m ∈ msgs, ∃ depth, m.body = .joinCFM depth) →
      fe.childrenList.Nodup → fe.numChildren = fe.childrenList.length % 256 →
      (handleMessages fe env msgs).1.childrenList.Nodup ∧
      (handleMessages fe env msgs).1.numChildren
        = (handleMessages fe env msgs).1.childrenList.length % 256 ∧
      (∀ a, a ∈ (handleMessages fe env msgs).1.childrenList ↔
        a ∈ fe.childrenList ∨ a ∈ msgs.map (fun m => m.srcAddr)) ∧
      fe.childrenList <:+ (handleMessages fe env msgs).1.childrenList := by
  induction msgs with
  | nil =>
    intro fe env _ hn hc
    exact ⟨hn, hc, by simp [handleMessages], List.suffix_refl _⟩
  | cons m l ih =>
    intro fe env hcfm hn hc
    obtain ⟨depth, hb⟩ := hcfm m (by simp)
    have hstep : handleMessages fe env (m :: l)
        = handleMessages (handleMessage fe env m).1 (handleMessage fe env m).2 l := rfl
    have hl : ∀ x ∈ l, ∃ depth, x.body = .joinCFM depth := fun x hx =>
      hcfm x (List.mem_cons_of_mem _ hx)
    rw [hstep, handleMessage_joinCFM fe env m depth hb]
    by_cases hm : m.srcAddr ∈ fe.childrenList
    · rw [if_pos hm]
      obtain ⟨h1, h2, h3, h4⟩ := ih fe env hl hn hc
      refine ⟨h1, h2, ?_, h4⟩
      intro a
      rw [h3 a]
      simp only [List.map_cons, List.mem_cons]
      constructor
      · rintro (h | h)
        · exact Or.inl h
        · exact Or.inr (Or.inr h)
      · rintro (h | h | h)
        · exact Or.inl h
        · exact Or.inl (h ▸ hm)
        · exact Or.inr h
    · rw [if_neg hm]
      have hn1 : (m.srcAddr :: fe.childrenList).Nodup := List.nodup_cons.mpr ⟨hm, hn⟩
      have hc1 : (fe.numChildren + 1) % 256 = (m.srcAddr :: fe.childrenList).length % 256 := by
        rw [hc, List.length_cons]
        omega
      obtain ⟨h1, h2, h3, h4⟩ := ih
        { fe with childrenList := m.srcAddr :: fe.childrenList,
                  numChildren := (fe.numChildren + 1) % 256 } env hl hn1 hc1
      refine ⟨h1, h2, ?_, ?_⟩
      · intro a
        rw [h3 a]
        simp only [List.map_cons, List.mem_cons]
        tauto
      · exact (List.suffix_cons _ _).trans h4

/-- A sequence of messages handled in two parts. -/
theorem handleMessages_append (fe : ForwardEngine) (env : Env) (l1 l2 : List GenericMessage) :
    handleMessages fe env (l1 ++ l2)
      = handleMessages (handleMessages fe env l1).1 (handleMessages fe env l1).2 l2 := by
  unfold handleMessages
  rw [List.foldl_append]

/-- C23: children-set invariant. After any sequence of JoinConfirm messages handled
from the empty children list, the list has no duplicates, holds exactly the source
addresses seen (each exactly once), keeps every child registered after any part of
the sequence, has as many entries as there are distinct sources, and `numChildren`
is its length modulo 256, hence its length while fewer than 256 distinct children
have joined. -/
theorem C23_children_set_invariant (fe : ForwardEngine) (env : Env)
    (msgs : List GenericMessage)
    (hempty : fe.childrenList = []) (hzero : fe.numChildren = 0)
    (hcfm : ∀ m ∈ msgs, ∃ depth, m.body = .joinCFM depth) :
    (handleMessages fe env msgs).1.childrenList.Nodup ∧
    (∀ a, a ∈ (handleMessages fe env msgs).1.childrenList ↔
      a ∈ msgs.map (fun m => m.srcAddr)) ∧
    (∀ a ∈ msgs.map (fun m => m.srcAddr),
      (handleMessages fe env msgs).1.childrenList.count a = 1) ∧
    (∀ k, (handleMessages fe env (msgs.take k)).1.childrenList
      <:+ (handleMessages fe env msgs).1.childrenList) ∧
    (handleMessages fe env msgs).1.childrenList.length
      = (msgs.map (fun m => m.srcAddr)).dedup.length ∧
    (handleMessages fe env msgs).1.numChildren
      = (handleMessages fe env msgs).1.childrenList.length % 256 ∧
    ((msgs.map (fun m => m.srcAddr)).dedup.length < 256 →
      (handleMessages fe env msgs).1.numChildren
        = (handleMessages fe env msgs).1.childrenList.length) := by
  have hn : fe.childrenList.Nodup := by rw [hempty]; exact List.nodup_nil
  have hc : fe.numChildren = fe.childrenList.length % 256 := by rw [hempty, hzero]; rfl
  obtain ⟨h1, h2, h3, _⟩ := handleMessages_children msgs fe env hcfm hn hc
  have hmem : ∀ a, a ∈ (handleMessages fe env msgs).1.childrenList ↔
      a ∈ msgs.map (fun m => m.srcAddr) := by
    intro a
    rw [h3 a, hempty]
    simp
  have hlen : (handleMessages fe env msgs).1.childrenList.length
      = (msgs.map (fun m => m.srcAddr)).dedup.length := by
    apply List.Perm.length_eq
    rw [List.perm_ext_iff_of_nodup h1 (List.nodup_dedup _)]
    intro a
    rw [hmem a, List.mem_dedup]
  refine ⟨h1, hmem, ?_, ?_, hlen, h2, ?_⟩
  · intro a ha
    exact List.count_eq_one_of_mem h1 ((hmem a).mpr ha)
  · intro k
    have hsplit : handleMessages fe env msgs
        = handleMessages (handleMessages fe env (msgs.take k)).1
            (handleMessages fe env (msgs.take k)).2 (msgs.drop k) := by
      rw [← handleMessages_append, List.take_append_drop]
    obtain ⟨p1, p2, _, _⟩ := handleMessages_children (msgs.take k) fe env
      (fun m hm => hcfm m (List.mem_of_mem_take hm)) hn hc
    obtain ⟨_, _, _, q4⟩ := handleMessages_children (msgs.drop k)
      (handleMessages fe env (msgs.take k)).1 (handleMessages fe env (msgs.take k)).2
      (fun m hm => hcfm m (List.mem_of_mem_drop hm)) p1 p2
    rw [hsplit]
    exact q4
  · intro hlt
    rw [h2, hlen]
    exact Nat.mod_eq_of_lt hlt

/-- C23 witness: the six JoinConfirms of `sampleConfirms`, then the first of them
again, handled by the node 0x01,0x02 without children. -/
theorem C23_children_set_invariant_witness :
    sampleJoined.childrenList = [] ∧ sampleJoined.numChildren = 0 ∧
    (handleMessages sampleJoined sampleEnv
      (sampleConfirms ++ sampleConfirms.take 1)).1.childrenList.length = 6 ∧
    (handleMessages sampleJoined sampleEnv
      (sampleConfirms ++ sampleConfirms.take 1)).1.numChildren = 6 ∧
    (handleMessages sampleJoined sampleEnv
      (sampleConfirms ++ sampleConfirms.take 1)).1.childrenList.Nodup :=
  ⟨rfl, rfl, by decide, by decide,
   (C23_children_set_invariant sampleJoined sampleEnv
      (sampleConfirms ++ sampleConfirms.take 1) rfl rfl
      (by simp [sampleConfirms, mkMessage])).1⟩

/-- The candidate after any sequence of messages, from a record without a path: the
seed when no ack is eligible, otherwise the best of the eligible acks. -/
theorem foldAcks_best_eligible (seed : ParentInfo) (msgs : List GenericMessage)
    (hseed : seed.hopsToGateway = 255) :
    (eligibleAcks msgs = [] → foldAcks seed msgs = seed) ∧
    (eligibleAcks msgs ≠ [] →
      ∃ a ∈ eligibleAcks msgs, foldAcks seed msgs = candidateOf seed a ∧
        ∀ b ∈ eligibleAcks msgs, atLeastAsGood a b) := by
  induction msgs with
  | nil => simp [eligibleAcks, foldAcks]
  | cons m l ih =>
    have hstep : foldAcks seed (m :: l) = foldAcks (joinSwitch seed m) l := rfl
    cases hp : hasPath m with
    | false =>
      have he : eligibleAcks (m :: l) = eligibleAcks l := by
        simp [eligibleAcks, List.filter_cons, hp]
      rw [hstep, joinSwitch_no_path seed m hp, he]
      exact ih
    | true =>
      have he : eligibleAcks (m :: l) = m :: (l.filter hasPath).filter aboveThreshold := by
        simp [eligibleAcks, List.filter_cons, hp]
      rw [hstep, joinSwitch_first seed m hseed hp, he]
      refine ⟨fun h => absurd h (by simp), fun _ => ?_⟩
      exact foldAcks_candidateOf seed l m hp

/-- When every signal strength reaches the threshold, the eligible acks are the acks
with a path. -/
theorem eligibleAcks_of_all_above (msgs : List GenericMessage)
    (hrssi : ∀ m ∈ msgs, m.rssi ≥ RSSI_THRESHOLD) :
    eligibleAcks msgs = msgs.filter hasPath := by
  unfold eligibleAcks
  cases hf : msgs.filter hasPath with
  | nil => rfl
  | cons a rest =>
    have hall : ∀ x ∈ rest, aboveThreshold x = true := by
      intro x hx
      have hx1 : x ∈ msgs.filter hasPath := by rw [hf]; exact List.mem_cons_of_mem _ hx
      have hx2 : x ∈ msgs := (List.mem_filter.mp hx1).1
      simpa [aboveThreshold] using hrssi x hx2
    simp only
    rw [List.filter_eq_self.mpr hall]

/-- The pair (hopsToGateway, rssi) of the candidate when every signal strength
reaches the threshold: that of an ack with a path that is at least as good as every
ack with a path. -/
theorem foldAcks_optimum (seed : ParentInfo) (msgs : List GenericMessage)
    (hseed : seed.hopsToGateway = 255)
    (hrssi : ∀ m ∈ msgs, m.rssi ≥ RSSI_THRESHOLD) :
    (msgs.filter hasPath = [] → foldAcks seed msgs = seed) ∧
    (msgs.filter hasPath ≠ [] →
      ∃ a ∈ msgs.filter hasPath,
        (foldAcks seed msgs).hopsToGateway = advertisedHops a ∧
        (foldAcks seed msgs).Rssi = a.rssi ∧
        ∀ b ∈ msgs.filter hasPath, atLeastAsGood a b) := by
  have h := foldAcks_best_eligible seed msgs hseed
  rw [eligibleAcks_of_all_above msgs hrssi] at h
  refine ⟨h.1, fun hne => ?_⟩
  obtain ⟨a, ha, hfold, hbest⟩ := h.2 hne
  exact ⟨a, ha, by rw [hfold]; rfl, by rw [hfold]; rfl, hbest⟩

/-- C25: for every sequence of messages whose signal strengths are all at least
-100, handled by `join()` from a record without a path, the candidate is the seed
when no ack advertises a path, and otherwise its (hopsToGateway, rssi) pair is that
of an ack with hopsToGateway other than 255 that has the minimum hops among those
acks and, among those of equal hops, the maximum rssi; the pair is the same for every
reordering of the sequence. -/
theorem C25_selection_order_independent (seed : ParentInfo)
    (msgs reordered : List GenericMessage)
    (hseed : seed.hopsToGateway = 255)
    (hrssi : ∀ m ∈ msgs, m.rssi ≥ RSSI_THRESHOLD)
    (hperm : msgs.Perm reordered) :
    (msgs.filter hasPath = [] → foldAcks seed msgs = seed) ∧
    (msgs.filter hasPath ≠ [] →
      ∃ a ∈ msgs.filter hasPath,
        (foldAcks seed msgs).hopsToGateway = advertisedHops a ∧
        (foldAcks seed msgs).Rssi = a.rssi ∧
        ∀ b ∈ msgs.filter hasPath, atLeastAsGood a b) ∧
    (foldAcks seed reordered).hopsToGateway = (foldAcks seed msgs).hopsToGateway ∧
    (foldAcks seed reordered).Rssi = (foldAcks seed msgs).Rssi := by
  have h1 := foldAcks_optimum seed msgs hseed hrssi
  have hrssi2 : ∀ m ∈ reordered, m.rssi ≥ RSSI_THRESHOLD := fun m hm =>
    hrssi m (hperm.mem_iff.mpr hm)
  have h2 := foldAcks_optimum seed reordered hseed hrssi2
  have hpf : (msgs.filter hasPath).Perm (reordered.filter hasPath) := hperm.filter _
  refine ⟨h1.1, h1.2, ?_⟩
  by_cases hnil : msgs.filter hasPath = []
  · have hnil2 : reordered.filter hasPath = [] := by
      rw [hnil] at hpf
      exact List.nil_perm.mp hpf
    rw [h1.1 hnil, h2.1 hnil2]
    exact ⟨rfl, rfl⟩
  · have hne2 : reordered.filter hasPath ≠ [] := by
      intro h
      rw [h] at hpf
      exact hnil (List.perm_nil.mp hpf)
    obtain ⟨a, ha, hah, har, hab⟩ := h1.2 hnil
    obtain ⟨c, hc, hch, hcr, hcb⟩ := h2.2 hne2
    have hac : atLeastAsGood a c := hab c (hpf.mem_iff.mpr hc)
    have hca : atLeastAsGood c a := hcb a (hpf.mem_iff.mp ha)
    rw [hah, har, hch, hcr]
    unfold atLeastAsGood at hac hca
    constructor <;> omega

/-- C25 witness: the acks (hops 2, rssi -70), (hops 1, rssi -90), (hops 1, rssi -60)
and the same acks in reversed order give the pair (1, -60). -/
theorem C25_selection_order_independent_witness :
    (foldAcks ⟨0, 255, ⟨1, 2⟩, 0, false⟩
      [{ srcAddr := ⟨7, 8⟩, destAddr := ⟨1, 2⟩, rssi := -60, body := .joinAck 1 },
       { srcAddr := ⟨5, 6⟩, destAddr := ⟨1, 2⟩, rssi := -90, body := .joinAck 1 },
       { srcAddr := ⟨3, 4⟩, destAddr := ⟨1, 2⟩, rssi := -70, body := .joinAck 2 }]).hopsToGateway
      = (foldAcks ⟨0, 255, ⟨1, 2⟩, 0, false⟩
      [{ srcAddr := ⟨3, 4⟩, destAddr := ⟨1, 2⟩, rssi := -70, body := .joinAck 2 },
       { srcAddr := ⟨5, 6⟩, destAddr := ⟨1, 2⟩, rssi := -90, body := .joinAck 1 },
       { srcAddr := ⟨7, 8⟩, destAddr := ⟨1, 2⟩, rssi := -60, body := .joinAck 1 }]).hopsToGateway ∧
    (foldAcks ⟨0, 255, ⟨1, 2⟩, 0, false⟩
      [{ srcAddr := ⟨7, 8⟩, destAddr := ⟨1, 2⟩, rssi := -60, body := .joinAck 1 },
       { srcAddr := ⟨5, 6⟩, destAddr := ⟨1, 2⟩, rssi := -90, body := .joinAck 1 },
       { srcAddr := ⟨3, 4⟩, destAddr := ⟨1, 2⟩, rssi := -70, body := .joinAck 2 }]).Rssi
      = (foldAcks ⟨0, 255, ⟨1, 2⟩, 0, false⟩
      [{ srcAddr := ⟨3, 4⟩, destAddr := ⟨1, 2⟩, rssi := -70, body := .joinAck 2 },
       { srcAddr := ⟨5, 6⟩, destAddr := ⟨1, 2⟩, rssi := -90, body := .joinAck 1 },
       { srcAddr := ⟨7, 8⟩, destAddr := ⟨1, 2⟩, rssi := -60, body := .joinAck 1 }]).Rssi :=
  (C25_selection_order_independent ⟨0, 255, ⟨1, 2⟩, 0, false⟩
    [{ srcAddr := ⟨3, 4⟩, destAddr := ⟨1, 2⟩, rssi := -70, body := .joinAck 2 },
     { srcAddr := ⟨5, 6⟩, destAddr := ⟨1, 2⟩, rssi := -90, body := .joinAck 1 },
     { srcAddr := ⟨7, 8⟩, destAddr := ⟨1, 2⟩, rssi := -60, body := .joinAck 1 }]
    [{ srcAddr := ⟨7, 8⟩, destAddr := ⟨1, 2⟩, rssi := -60, body := .joinAck 1 },
     { srcAddr := ⟨5, 6⟩, destAddr := ⟨1, 2⟩, rssi := -90, body := .joinAck 1 },
     { srcAddr := ⟨3, 4⟩, destAddr := ⟨1, 2⟩, rssi := -70, body := .joinAck 2 }]
    rfl (by decide) (List.reverse_perm _).symm).2.2

/-- A gateway has no sleep phase. -/
theorem sleepPhase_gateway (ebyte : Bool) (available : Int) (rtcFired : Bool)
    (fe : ForwardEngine) (env : Env) (hg : isGateway fe.myAddr = true) :
    sleepPhase ebyte available rtcFired fe env = env := by
  simp [sleepPhase, hg]

theorem requestSeqs_append (l1 l2 : List Action) :
    requestSeqs (l1 ++ l2) = requestSeqs l1 ++ requestSeqs l2 := by
  unfold requestSeqs
  exact List.filterMap_append _ _ _

theorem receiveMessage_trace (env : Env) (timeout : Nat) :
    (receiveMessage env timeout).2.trace = env.trace ∧
    (receiveMessage env timeout).2.interruptsEnabled = env.interruptsEnabled := by
  unfold receiveMessage
  split <;> exact ⟨rfl, rfl⟩

/-- A message handled by a gateway: no GatewayRequest is sent, and the sequence
number and the address stay. -/
theorem handleMessage_gateway (fe : ForwardEngine) (env : Env) (msg : GenericMessage)
    (hg : isGateway fe.myAddr = true) :
    ∃ out, (handleMessage fe env msg).2.trace = env.trace ++ out ∧ requestSeqs out = [] ∧
      (handleMessage fe env msg).1.seqNum = fe.seqNum ∧
      (handleMessage fe env msg).1.myAddr = fe.myAddr := by
  unfold handleMessage
  cases hb : msg.body with
  | join =>
    dsimp only
    by_cases hp : msg.srcAddr.b0 = fe.myParent.parentAddr.b0 ∧
        msg.srcAddr.b1 = fe.myParent.parentAddr.b1
    · rw [if_pos hp]
      exact ⟨[], by simp, rfl, rfl, rfl⟩
    · rw [if_neg hp]
      obtain ⟨rs, h1⟩ := random_env (MIN_BACKOFF_TIME : Int) (MAX_JOIN_ACK_BACKOFF_TIME : Int) env
      rcases hr : random (MIN_BACKOFF_TIME : Int) (MAX_JOIN_ACK_BACKOFF_TIME : Int) env
        with ⟨r, env1⟩
      rw [hr] at h1
      dsimp only at h1 ⊢
      subst h1
      exact ⟨[.sleepForMillis (toULong r),
        .send (mkMessage fe.myAddr msg.srcAddr (.joinAck fe.hopsToGateway)) msg.srcAddr],
        by simp [send, sleepForMillis], by simp [requestSeqs, requestSeq, mkMessage], rfl, rfl⟩
  | joinAck h => exact ⟨[], by simp, rfl, rfl, rfl⟩
  | joinCFM d =>
    dsimp only
    split_ifs
    · exact ⟨[], by simp, rfl, rfl, rfl⟩
    · exact ⟨[], by simp, rfl, rfl, rfl⟩
  | checkAlive d => exact ⟨[], by simp, rfl, rfl, rfl⟩
  | replyAlive => exact ⟨[], by simp, rfl, rfl, rfl⟩
  | gatewayRequest s n c =>
    dsimp only
    rw [if_pos hg]
    split_ifs
    · exact ⟨[], by simp, rfl, rfl, rfl⟩
    · exact ⟨[], by simp, rfl, rfl, rfl⟩
  | nodeReply s n d =>
    dsimp only
    rw [if_pos hg]
    split_ifs
    · exact ⟨[.onRecvResponse d n msg.srcAddr], rfl, by simp [requestSeqs, requestSeq], rfl, rfl⟩
    · exact ⟨[], by simp, rfl, rfl, rfl⟩

/-- The gateway branch sends no request and keeps the sequence number, or sends one
request with the sequence number plus one modulo 256 and keeps that number. -/
theorem gatewayTick_seq (fe : ForwardEngine) (env : Env) :
    ∃ out, (gatewayTick fe env).2.trace = env.trace ++ out ∧
      (gatewayTick fe env).1.myAddr = fe.myAddr ∧
      ((requestSeqs out = [] ∧ (gatewayTick fe env).1.seqNum = fe.seqNum) ∨
       (requestSeqs out = [(fe.seqNum + 1) % 256] ∧
        (gatewayTick fe env).1.seqNum = (fe.seqNum + 1) % 256)) := by
  unfold gatewayTick
  dsimp only
  split_ifs
  · exact ⟨_, rfl, rfl, Or.inr ⟨by simp [requestSeqs, requestSeq, mkMessage], rfl⟩⟩
  · exact ⟨[], by simp, rfl, Or.inl ⟨rfl, rfl⟩⟩

/-- One iteration of the main loop at a gateway. -/
theorem runIteration_gateway (ebyte : Bool) (exceeds : Nat → Nat → Bool) (inp : LoopInput)
    (fe : ForwardEngine) (env : Env) (hg : isGateway fe.myAddr = true) :
    ∃ out, (runIteration ebyte exceeds inp fe env).2.trace = env.trace ++ out ∧
      (runIteration ebyte exceeds inp fe env).1.myAddr = fe.myAddr ∧
      ((requestSeqs out = [] ∧ (runIteration ebyte exceeds inp fe env).1.seqNum = fe.seqNum) ∨
       (requestSeqs out = [(fe.seqNum + 1) % 256] ∧
        (runIteration ebyte exceeds inp fe env).1.seqNum = (fe.seqNum + 1) % 256)) := by
  have hh : ∃ out,
      (match receiveMessage env RECEIVE_TIMEOUT with
        | (none, env1) => (fe, env1)
        | (some msg, env1) => handleMessage fe env1 msg).2.trace = env.trace ++ out ∧
      requestSeqs out = [] ∧
      (match receiveMessage env RECEIVE_TIMEOUT with
        | (none, env1) => (fe, env1)
        | (some msg, env1) => handleMessage fe env1 msg).1.seqNum = fe.seqNum ∧
      (match receiveMessage env RECEIVE_TIMEOUT with
        | (none, env1) => (fe, env1)
        | (some msg, env1) => handleMessage fe env1 msg).1.myAddr = fe.myAddr := by
    have ht := (receiveMessage_trace env RECEIVE_TIMEOUT).1
    rcases hr : receiveMessage env RECEIVE_TIMEOUT with ⟨o, env1⟩
    rw [hr] at ht
    cases o with
    | none => exact ⟨[], by simpa using ht, rfl, rfl, rfl⟩
    | some msg =>
      obtain ⟨out, h1, h2, h3, h4⟩ := handleMessage_gateway fe env1 msg hg
      exact ⟨out, by rw [h1]; simp at ht; rw [ht], h2, h3, h4⟩
  unfold runIteration
  rw [sleepPhase_gateway ebyte inp.available inp.rtcFired fe env hg]
  dsimp only
  obtain ⟨out1, h1, h2, h3, h4⟩ := hh
  rw [h4, if_pos hg]
  obtain ⟨out2, g1, g2, g3⟩ := gatewayTick_seq
    (match receiveMessage env RECEIVE_TIMEOUT with
      | (none, env1) => (fe, env1)
      | (some msg, env1) => handleMessage fe env1 msg).1
    (match receiveMessage env RECEIVE_TIMEOUT with
      | (none, env1) => (fe, env1)
      | (some msg, env1) => handleMessage fe env1 msg).2
  refine ⟨out1 ++ out2, ?_, ?_, ?_⟩
  · rw [g1, h1, List.append_assoc]
  · rw [g2, h4]
  · rw [requestSeqs_append, h2, List.nil_append, h3] at *
    exact g3

/-- The requests of a gateway over any number of iterations: each sequence number is
the one before plus one modulo 256, from the number the gateway starts with. -/
theorem runLoop_gateway (ebyte : Bool) (exceeds : Nat → Nat → Bool)
    (inputs : List LoopInput) :
    ∀ (fe : ForwardEngine) (env : Env), isGateway fe.myAddr = true →
      ∃ out, (runLoop ebyte exceeds inputs fe env).2.trace = env.trace ++ out ∧
        List.Chain (fun a b => b = (a + 1) % 256) fe.seqNum (requestSeqs out) := by
  induction inputs with
  | nil =>
    intro fe env _
    exact ⟨[], by simp [runLoop], by simp [requestSeqs]⟩
  | cons inp rest ih =>
    intro fe env hg
    unfold runLoop
    by_cases hs : fe.state = JOINED
    · rw [if_pos hs]
      obtain ⟨out1, h1, h2, h3⟩ := runIteration_gateway ebyte exceeds inp fe env hg
      obtain ⟨out2, g1, g2⟩ := ih (runIteration ebyte exceeds inp fe env).1
        (runIteration ebyte exceeds inp fe env).2 (by rw [h2]; exact hg)
      refine ⟨out1 ++ out2, by rw [g1, h1, List.append_assoc], ?_⟩
      rw [requestSeqs_append]
      rcases h3 with ⟨h3, h4⟩ | ⟨h3, h4⟩
      · rw [h3, List.nil_append, ← h4]
        exact g2
      · rw [h3, List.singleton_append]
        rw [h4] at g2
        exact List.Chain.cons rfl g2
    · rw [if_neg hs]
      exact ⟨[], by simp, by simp [requestSeqs]⟩

set_option maxRecDepth 100000 in
/-- C21 as stated fails at the 256th request: the gateway 0x81,0x00 with request
interval 1000 ms and a silent radio issues one request per iteration; the requests
of its first 256 iterations carry 1, 2, ..., 255 and then 0, which is not above
255. -/
theorem C21_counterexample :
    requestSeqs (runLoop false (fun _ _ => false) (List.replicate 256 ⟨0, false⟩)
      (setGatewayReqTime 1000 sampleGateway) sampleEnv).2.trace
      = List.range' 1 255 ++ [0] ∧
    ¬ (∀ i, i + 1 < (requestSeqs (runLoop false (fun _ _ => false)
          (List.replicate 256 ⟨0, false⟩)
          (setGatewayReqTime 1000 sampleGateway) sampleEnv).2.trace).length →
        (requestSeqs (runLoop false (fun _ _ => false) (List.replicate 256 ⟨0, false⟩)
          (setGatewayReqTime 1000 sampleGateway) sampleEnv).2.trace).getD i 0
        < (requestSeqs (runLoop false (fun _ _ => false) (List.replicate 256 ⟨0, false⟩)
          (setGatewayReqTime 1000 sampleGateway) sampleEnv).2.trace).getD (i + 1) 0) := by
  have h : requestSeqs (runLoop false (fun _ _ => false) (List.replicate 256 ⟨0, false⟩)
      (setGatewayReqTime 1000 sampleGateway) sampleEnv).2.trace
      = List.range' 1 255 ++ [0] := by decide
  refine ⟨h, fun hall => ?_⟩
  have h254 := hall 254
  rw [h] at h254
  exact absurd (h254 (by decide)) (by decide)

/-- C21 (amended): for every run of a gateway, each GatewayRequest it issues carries
the sequence number of the request before plus one modulo 256 (`seqNum` is a byte),
the first one the number the gateway starts with plus one modulo 256; so the number
is strictly greater than the one before except after 255, which 0 follows. -/
theorem C21_sequence_numbers_successive (ebyte : Bool) (exceeds : Nat → Nat → Bool)
    (inputs : List LoopInput) (fe : ForwardEngine) (env : Env)
    (hg : isGateway fe.myAddr = true) :
    ∃ out, (runLoop ebyte exceeds inputs fe env).2.trace = env.trace ++ out ∧
      List.Chain (fun a b => b = (a + 1) % 256 ∧ (a < 255 → a < b) ∧ (a = 255 → b = 0))
        fe.seqNum (requestSeqs out) := by
  obtain ⟨out, h1, h2⟩ := runLoop_gateway ebyte exceeds inputs fe env hg
  refine ⟨out, h1, ?_⟩
  refine List.Chain.imp ?_ h2
  intro a b hab
  refine ⟨hab, fun h => ?_, fun h => ?_⟩ <;> omega

/-- C21 witness: three iterations of the gateway 0x81,0x00 that starts with the
sequence number 254, with request interval 1000 ms and a silent radio. -/
theorem C21_sequence_numbers_successive_witness :
    isGateway sampleGateway.myAddr = true ∧
    requestSeqs (runLoop false (fun _ _ => false) (List.replicate 3 ⟨0, false⟩)
      { sampleGateway with gatewayReqTime := 1000, seqNum := 254 } sampleEnv).2.trace
      = [255, 0, 1] ∧
    ∃ out, (runLoop false (fun _ _ => false) (List.replicate 3 ⟨0, false⟩)
        { sampleGateway with gatewayReqTime := 1000, seqNum := 254 } sampleEnv).2.trace
        = sampleEnv.trace ++ out ∧
      List.Chain (fun a b => b = (a + 1) % 256 ∧ (a < 255 → a < b) ∧ (a = 255 → b = 0))
        254 (requestSeqs out) :=
  ⟨by decide, by decide,
   C21_sequence_numbers_successive false (fun _ _ => false) (List.replicate 3 ⟨0, false⟩)
     { sampleGateway with gatewayReqTime := 1000, seqNum := 254 } sampleEnv (by decide)⟩

/-- The wait before the re-broadcast when the reply back-off `b` is within the budget
`B = maxBackoffTime` and `0 < B < 2 ^ 30`: the remaining time `B - b` has not
wrapped, and the wait lies in `[B - b, 2B - b)`. -/
theorem forwardToChildren_wait (fe : ForwardEngine) (env : Env) (seqNum b : Nat)
    (hc : fe.numChildren > 0) (hpos : 0 < fe.maxBackoffTime)
    (hB : fe.maxBackoffTime < 1073741824) (hb : b ≤ fe.maxBackoffTime) :
    sub32 fe.maxBackoffTime b = fe.maxBackoffTime - b ∧
    ∃ w msg,
      (forwardToChildren fe env seqNum b).trace
        = env.trace ++ [.sleepForMillis w, .send msg BROADCAST_ADDR] ∧
      fe.maxBackoffTime - b ≤ w ∧ w < 2 * fe.maxBackoffTime - b := by
  have hsub : sub32 fe.maxBackoffTime b = fe.maxBackoffTime - b := by
    unfold sub32
    norm_num
    omega
  refine ⟨hsub, ?_⟩
  unfold forwardToChildren
  rw [if_pos hc, hsub]
  have hadd : add32 (fe.maxBackoffTime - b) fe.maxBackoffTime
      = fe.maxBackoffTime - b + fe.maxBackoffTime := by
    unfold add32
    norm_num
    omega
  dsimp only
  rw [hadd]
  obtain ⟨hs1, _⟩ := toLong_cases (fe.maxBackoffTime - b) (by omega)
  obtain ⟨hs2, _⟩ := toLong_cases (fe.maxBackoffTime - b + fe.maxBackoffTime) (by omega)
  have e1 := hs1 (by omega)
  have e2 := hs2 (by omega)
  obtain ⟨hlt, _⟩ := random_range (toLong (fe.maxBackoffTime - b))
    (toLong (fe.maxBackoffTime - b + fe.maxBackoffTime)) env
  obtain ⟨rs, h1⟩ := random_env (toLong (fe.maxBackoffTime - b))
    (toLong (fe.maxBackoffTime - b + fe.maxBackoffTime)) env
  rcases hr : random (toLong (fe.maxBackoffTime - b))
    (toLong (fe.maxBackoffTime - b + fe.maxBackoffTime)) env with ⟨r, env1⟩
  rw [hr] at h1 hlt
  dsimp only at h1 hlt ⊢
  subst h1
  rw [e1, e2] at hlt
  obtain ⟨g1, g2⟩ := hlt (by push_cast; omega)
  have hcast := toULong_of_nonneg r (by omega) (by norm_num; omega)
  refine ⟨toULong r, mkMessage fe.myAddr BROADCAST_ADDR (.gatewayRequest seqNum fe.gatewayReqTime
    (cappedChildBackoff env.intBits fe.numChildren fe.gatewayReqTime)),
    by simp [send, sleepForMillis], ?_, ?_⟩
  · omega
  · omega

/-- C24 at the budget 0: the node 0x01,0x02 with one child accepts the request
seq=1, interval=60000, childBudget=0 of its parent. It sleeps the minimum 100 ms
before the reply, the remaining time `0 - 100` wraps to 4294967196 as an `unsigned
long`, and the node sleeps 4294967196 ms (more than 49 days) before it re-broadcasts
the request: the reply back-off is above the budget and the wait is not below twice
the budget. -/
theorem C24_remaining_time_wraps :
    sub32 0 100 = 4294967196 ∧
    (handleMessage { sampleJoined with numChildren := 1, childrenList := [⟨0x01, 0x10⟩] }
        sampleEnvWithData { sampleRequest with body := .gatewayRequest 1 60000 0 }).1.maxBackoffTime
      = 0 ∧
    (handleMessage { sampleJoined with numChildren := 1, childrenList := [⟨0x01, 0x10⟩] }
        sampleEnvWithData { sampleRequest with body := .gatewayRequest 1 60000 0 }).2.trace
      = [.sleepForMillis 100, .onRecvRequest,
         .send (mkMessage ⟨0x01, 0x02⟩ ⟨0x81, 0x00⟩ (.nodeReply 1 2 [0x17, 0x2A])) ⟨0x81, 0x00⟩,
         .sleepForMillis 4294967196,
         .send (mkMessage ⟨0x01, 0x02⟩ BROADCAST_ADDR (.gatewayRequest 1 60000 3000))
           BROADCAST_ADDR] ∧
    ¬ (100 ≤ 0) ∧ ¬ (4294967196 < 2 * 0) := by
  decide

/-- The constructor, `setGatewayReqTime`, `setSleepMode`, a `join()` that returns
false and the end of `run()` leave the parent record of an Unjoined node naming the
node itself, without a path. -/
theorem unjoinedRecord_kept (fe : ForwardEngine) :
    (∀ addr uninit, unjoinedRecord (newForwardEngine addr uninit)) ∧
    (∀ gatewayReqTime, unjoinedRecord fe → unjoinedRecord (setGatewayReqTime gatewayReqTime fe)) ∧
    (∀ sleepMode pin rtcError, unjoinedRecord fe →
      unjoinedRecord (setSleepMode sleepMode pin rtcError fe)) ∧
    (∀ fuel env fe1 env1, join fuel fe env = some (false, fe1, env1) → fe1 = fe) ∧
    unjoinedRecord (runExit fe) := by
  refine ⟨fun _ _ => ⟨rfl, rfl⟩, fun _ h => h, ?_, ?_, ⟨rfl, rfl⟩⟩
  · intro sleepMode pin rtcError h
    unfold setSleepMode
    split_ifs <;> exact h
  · intro fuel env fe1 env1 hj
    unfold join at hj
    split_ifs at hj with hs
    · simp at hj
    · dsimp only at hj
      split at hj
      · simp at hj
      · split_ifs at hj
        · simp at hj
        · simp only [Option.some.injEq, Prod.mk.injEq, true_and] at hj
          exact hj.1.symm

/-- C26 after `setAddr`: the node constructed with the address 0x01,0x02 and given
the address 0x01,0x03 by `setAddr` keeps 0x01,0x02 in its parent record. In `run()`
its first `join()` hears nothing during the discovery window and nevertheless
returns true: the node sends a JoinCFM to 0x01,0x02, takes hopsToGateway 0 (255 + 1
as a byte) and is Joined. -/
theorem C26_setAddr_leaves_parent_record :
    (setAddr ⟨0x01, 0x03⟩ (newForwardEngine ⟨0x01, 0x02⟩ sampleUnjoined)).myAddr = ⟨0x01, 0x03⟩ ∧
    (setAddr ⟨0x01, 0x03⟩ (newForwardEngine ⟨0x01, 0x02⟩ sampleUnjoined)).myParent.parentAddr
      = ⟨0x01, 0x02⟩ ∧
    ¬ unjoinedRecord (setAddr ⟨0x01, 0x03⟩ (newForwardEngine ⟨0x01, 0x02⟩ sampleUnjoined)) ∧
    join 21 (setAddr ⟨0x01, 0x03⟩ (newForwardEngine ⟨0x01, 0x02⟩ sampleUnjoined)) sampleEnv
      = some (true,
          { setAddr ⟨0x01, 0x03⟩ (newForwardEngine ⟨0x01, 0x02⟩ sampleUnjoined) with
            myParent := ⟨10000, 255, ⟨0x01, 0x02⟩, 0, false⟩, hopsToGateway := 0 },
          { sampleEnv with
            now := 10000,
            trace := [.send (mkMessage ⟨0x01, 0x03⟩ BROADCAST_ADDR .join) BROADCAST_ADDR,
                      .send (mkMessage ⟨0x01, 0x03⟩ ⟨0x01, 0x02⟩ (.joinCFM 0)) ⟨0x01, 0x02⟩] }) ∧
    (runStart 2 21 (setAddr ⟨0x01, 0x03⟩ (newForwardEngine ⟨0x01, 0x02⟩ sampleUnjoined))
        sampleEnv).map (fun r => (r.1.state, r.1.hopsToGateway, r.1.myParent.parentAddr))
      = some (JOINED, 0, ⟨0x01, 0x02⟩) := by
  decide

theorem maskAfter_append (l1 l2 : List Action) :
    ∀ e, maskAfter e (l1 ++ l2) = maskAfter (maskAfter e l1) l2 := by
  induction l1 with
  | nil => intro e; rfl
  | cons a l ih =>
    intro e
    cases a <;> simp [maskAfter, ih]

theorem flagAccesses_append (l1 l2 : List Action) :
    ∀ e, flagAccesses e (l1 ++ l2) = flagAccesses e l1 ++ flagAccesses (maskAfter e l1) l2 := by
  induction l1 with
  | nil => intro e; rfl
  | cons a l ih =>
    intro e
    cases a <;> simp [flagAccesses, maskAfter, ih]

/-- The sleep phase: when it is entered, the flag is checked once, after
`noInterrupts()`; on the RTC branch the flag is written after `interrupts()` when it
is still false after the wake-up; interrupts are enabled afterwards. -/
theorem sleepPhase_accesses (ebyte : Bool) (available : Int) (rtcFired : Bool)
    (fe : ForwardEngine) (env : Env) :
    ∃ out, (sleepPhase ebyte available rtcFired fe env).trace = env.trace ++ out ∧
      flagAccesses env.interruptsEnabled out
        = (if (ebyte = true ∧ isGateway fe.myAddr = false) ∧
              (fe.sleepMode = SleepMode.SLEEP_TRANSCEIVER_INTERRUPT ∨
                fe.sleepMode = SleepMode.SLEEP_RTC_INTERRUPT) ∧ available < 1 then
            (.checkAllowReceiving env.allowReceiving, false) ::
              (if env.allowReceiving = false ∧ rtcFired = false then
                [(.writeAllowReceiving true, true)] else [])
          else []) ∧
      maskAfter env.interruptsEnabled out
        = (if (ebyte = true ∧ isGateway fe.myAddr = false) ∧
              (fe.sleepMode = SleepMode.SLEEP_TRANSCEIVER_INTERRUPT ∨
                fe.sleepMode = SleepMode.SLEEP_RTC_INTERRUPT) ∧ available < 1 then true
          else env.interruptsEnabled) := by
  unfold sleepPhase
  by_cases h1 : ebyte = true ∧ isGateway fe.myAddr = false
  · by_cases h2 : fe.sleepMode = SleepMode.SLEEP_TRANSCEIVER_INTERRUPT ∨
        fe.sleepMode = SleepMode.SLEEP_RTC_INTERRUPT
    · by_cases h3 : available < 1
      · have hent : (ebyte = true ∧ isGateway fe.myAddr = false) ∧
            (fe.sleepMode = SleepMode.SLEEP_TRANSCEIVER_INTERRUPT ∨
              fe.sleepMode = SleepMode.SLEEP_RTC_INTERRUPT) ∧ available < 1 := ⟨h1, h2, h3⟩
        simp only [if_pos h1, if_pos h2, if_pos h3, if_pos hent]
        cases hf : env.allowReceiving with
        | true =>
          cases hr : rtcFired with
          | true =>
            exact ⟨[.noInterrupts, .checkAllowReceiving true, .powerDownMCU, .rtcISR,
              .sleepForMillis 50],
              by simp [noInterrupts, powerDownMCU, rtcISR, sleepForMillis, hf],
              by simp [flagAccesses], by simp [maskAfter]⟩
          | false =>
            exact ⟨[.noInterrupts, .checkAllowReceiving true, .powerDownMCU,
              .sleepForMillis 50],
              by simp [noInterrupts, powerDownMCU, sleepForMillis, hf],
              by simp [flagAccesses], by simp [maskAfter]⟩
        | false =>
          cases hr : rtcFired with
          | true =>
            exact ⟨[.noInterrupts, .checkAllowReceiving false, .interrupts, .enterSleepMode,
              .rtcAlarm, .rtcSetAlarmDate (sub32 fe.nextGatewayReqTime 3), .noInterrupts,
              .attachInterrupt, .interrupts, .sleepCpu, .rtcISR, .rtcAlarm,
              .sleepForMillis 50, .enterTransMode,
              .rtcSetAlarmDate (add32 env.rtcNow fe.receivingPeriod), .attachInterrupt],
              by simp [noInterrupts, interrupts, rtcSleep, sleepCpu, rtcISR, sleepForMillis, hf],
              by simp [flagAccesses], by simp [maskAfter]⟩
          | false =>
            exact ⟨[.noInterrupts, .checkAllowReceiving false, .interrupts, .enterSleepMode,
              .rtcAlarm, .rtcSetAlarmDate (sub32 fe.nextGatewayReqTime 3), .noInterrupts,
              .attachInterrupt, .interrupts, .sleepCpu, .rtcAlarm, .writeAllowReceiving true,
              .sleepForMillis 50, .enterTransMode,
              .rtcSetAlarmDate (add32 env.rtcNow fe.receivingPeriod), .attachInterrupt],
              by simp [noInterrupts, interrupts, rtcSleep, sleepCpu, sleepForMillis, hf],
              by simp [flagAccesses], by simp [maskAfter]⟩
      · have hent : ¬ ((ebyte = true ∧ isGateway fe.myAddr = false) ∧
            (fe.sleepMode = SleepMode.SLEEP_TRANSCEIVER_INTERRUPT ∨
              fe.sleepMode = SleepMode.SLEEP_RTC_INTERRUPT) ∧ available < 1) := fun h => h3 h.2.2
        simp only [if_pos h1, if_pos h2, if_neg h3, if_neg hent]
        exact ⟨[], by simp, rfl, rfl⟩
    · have hent : ¬ ((ebyte = true ∧ isGateway fe.myAddr = false) ∧
          (fe.sleepMode = SleepMode.SLEEP_TRANSCEIVER_INTERRUPT ∨
            fe.sleepMode = SleepMode.SLEEP_RTC_INTERRUPT) ∧ available < 1) := fun h => h2 h.2.1
      simp only [if_pos h1, if_neg h2, if_neg hent]
      exact ⟨[], by simp, rfl, rfl⟩
  · have hent : ¬ ((ebyte = true ∧ isGateway fe.myAddr = false) ∧
        (fe.sleepMode = SleepMode.SLEEP_TRANSCEIVER_INTERRUPT ∨
          fe.sleepMode = SleepMode.SLEEP_RTC_INTERRUPT) ∧ available < 1) := fun h => h1 h.1
    simp only [if_neg h1, if_neg hent]
    exact ⟨[], by simp, rfl, rfl⟩

/-- The handling of a received message: the one access to the flag it can make is the
write `allowReceiving = true` of the first gateway contact in the RTC mode, and no
`noInterrupts()` or `interrupts()` precedes that write. -/
theorem handleMessage_accesses (fe : ForwardEngine) (env : Env) (msg : GenericMessage) :
    ∃ out, (handleMessage fe env msg).2.trace = env.trace ++ out ∧
      ∀ e, flagAccesses e out = [] ∨
        (fe.sleepMode = SleepMode.SLEEP_RTC_INTERRUPT ∧ fe.firstGatewayContact = false ∧
          isGateway fe.myAddr = false ∧ flagAccesses e out = [(.writeAllowReceiving true, e)]) := by
  cases hb : msg.body with
  | join =>
    unfold handleMessage
    simp only [hb]
    by_cases hp : msg.srcAddr.b0 = fe.myParent.parentAddr.b0 ∧
        msg.srcAddr.b1 = fe.myParent.parentAddr.b1
    · rw [if_pos hp]
      exact ⟨[], by simp, fun _ => Or.inl rfl⟩
    · rw [if_neg hp]
      obtain ⟨rs, h1⟩ := random_env (MIN_BACKOFF_TIME : Int) (MAX_JOIN_ACK_BACKOFF_TIME : Int) env
      rcases hr : random (MIN_BACKOFF_TIME : Int) (MAX_JOIN_ACK_BACKOFF_TIME : Int) env
        with ⟨r, env1⟩
      rw [hr] at h1
      dsimp only at h1 ⊢
      subst h1
      exact ⟨[.sleepForMillis (toULong r),
        .send (mkMessage fe.myAddr msg.srcAddr (.joinAck fe.hopsToGateway)) msg.srcAddr],
        by simp [send, sleepForMillis], fun _ => Or.inl (by simp [flagAccesses])⟩
  | joinAck h =>
    unfold handleMessage
    simp only [hb]
    exact ⟨[], by simp, fun _ => Or.inl rfl⟩
  | joinCFM d =>
    unfold handleMessage
    simp only [hb]
    split_ifs
    · exact ⟨[], by simp, fun _ => Or.inl rfl⟩
    · exact ⟨[], by simp, fun _ => Or.inl rfl⟩
  | checkAlive d =>
    unfold handleMessage
    simp only [hb]
    exact ⟨[], by simp, fun _ => Or.inl rfl⟩
  | replyAlive =>
    unfold handleMessage
    simp only [hb]
    exact ⟨[], by simp, fun _ => Or.inl rfl⟩
  | gatewayRequest s n c =>
    by_cases hp : msg.srcAddr.b0 ≠ fe.myParent.parentAddr.b0 ∨
        msg.srcAddr.b1 ≠ fe.myParent.parentAddr.b1
    · unfold handleMessage
      simp only [hb]
      rw [if_pos hp]
      exact ⟨[], by simp, fun _ => Or.inl rfl⟩
    · cases hg : isGateway fe.myAddr with
      | true =>
        unfold handleMessage
        simp only [hb]
        rw [if_neg hp, hg, if_pos rfl]
        exact ⟨[], by simp, fun _ => Or.inl rfl⟩
      | false =>
        have hsrc : msg.srcAddr = fe.myParent.parentAddr := by
          by_contra hne
          exact hp ((addr_ne_iff _ _).mpr hne)
        rw [handleMessage_accept fe env msg s n c hb hsrc hg]
        obtain ⟨backoff, backoff2, endTime, dataLength, data, htrace, _⟩ :=
          acceptGatewayRequest_trace fe env s n c
        refine ⟨[.sleepForMillis backoff]
            ++ ((if fe.onRecvRequest then [.onRecvRequest] else [])
            ++ ([.send (mkMessage fe.myAddr fe.myParent.parentAddr
                  (.nodeReply s dataLength data)) fe.myParent.parentAddr]
            ++ ((if fe.numChildren > 0 then
                  [.sleepForMillis backoff2,
                   .send (mkMessage fe.myAddr BROADCAST_ADDR (.gatewayRequest s n
                      (cappedChildBackoff env.intBits fe.numChildren n))) BROADCAST_ADDR]
                else [])
            ++ (if fe.sleepMode = SleepMode.SLEEP_RTC_INTERRUPT ∧ fe.firstGatewayContact = false then
                  [.writeAllowReceiving true, .rtcAlarm, .rtcSquareWaveNone,
                   .rtcSetAlarmMinutes endTime, .noInterrupts, .attachInterrupt]
                else [])))),
          by rw [htrace]; simp only [List.append_assoc], fun e => ?_⟩
        by_cases hfirst : fe.sleepMode = SleepMode.SLEEP_RTC_INTERRUPT ∧
            fe.firstGatewayContact = false
        · refine Or.inr ⟨hfirst.1, hfirst.2, rfl, ?_⟩
          rw [if_pos hfirst]
          by_cases hcb : fe.onRecvRequest = true <;> by_cases hc : fe.numChildren > 0 <;>
            simp [flagAccesses, hcb, hc]
        · refine Or.inl ?_
          rw [if_neg hfirst]
          by_cases hcb : fe.onRecvRequest = true <;> by_cases hc : fe.numChildren > 0 <;>
            simp [flagAccesses, hcb, hc]
  | nodeReply s n d =>
    unfold handleMessage
    simp only [hb]
    cases hg : isGateway fe.myAddr with
    | true =>
      simp only [if_true]
      split_ifs
      · exact ⟨[.onRecvResponse d n msg.srcAddr], rfl, fun _ => Or.inl (by simp [flagAccesses])⟩
      · exact ⟨[], by simp, fun _ => Or.inl rfl⟩
    | false =>
      simp only [Bool.false_eq_true, if_false]
      obtain ⟨rs, h1⟩ := random_env (MIN_BACKOFF_TIME : Int) (toLong fe.maxBackoffTime) env
      rcases hr : random (MIN_BACKOFF_TIME : Int) (toLong fe.maxBackoffTime) env
        with ⟨r, env1⟩
      rw [hr] at h1
      dsimp only at h1 ⊢
      subst h1
      exact ⟨[.sleepForMillis (toULong r),
        .send (mkMessage msg.srcAddr fe.myParent.parentAddr (.nodeReply s n d))
          fe.myParent.parentAddr],
        by simp [send, sleepForMillis], fun _ => Or.inl (by simp [flagAccesses])⟩

/-- The gateway branch does not touch the flag. -/
theorem gatewayTick_accesses (fe : ForwardEngine) (env : Env) :
    ∃ out, (gatewayTick fe env).2.trace = env.trace ++ out ∧ ∀ e, flagAccesses e out = [] := by
  unfold gatewayTick
  dsimp only
  split_ifs
  · exact ⟨_, rfl, fun _ => by simp [flagAccesses]⟩
  · exact ⟨[], by simp, fun _ => rfl⟩

/-- The end of an iteration (the gateway branch or the liveness branch) does not
touch the flag. -/
theorem runIteration_tail (ebyte : Bool) (exceeds : Nat → Nat → Bool) (inp : LoopInput)
    (fe : ForwardEngine) (env : Env) :
    ∃ out, (runIteration ebyte exceeds inp fe env).2.trace
        = (match receiveMessage (sleepPhase ebyte inp.available inp.rtcFired fe env)
              RECEIVE_TIMEOUT with
            | (none, env1) => (fe, env1)
            | (some msg, env1) => handleMessage fe env1 msg).2.trace ++ out ∧
      ∀ e, flagAccesses e out = [] := by
  unfold runIteration
  dsimp only
  split_ifs
  · exact gatewayTick_accesses _ _
  · exact ⟨[], by simp, fun _ => rfl⟩

/-- C22 at the two writes of the main loop. RTC wake-up: with the flag false the node
0x01,0x02 in the RTC mode checks it with interrupts disabled, attaches `rtcISR`,
enables interrupts and halts; when the wake-up did not come from the alarm the flag
is still false, and the node writes it with interrupts enabled while the handler is
attached. First gateway contact: with interrupts enabled and the request of its
parent already in the receive buffer, the node writes the flag with interrupts
enabled; the `noInterrupts()` of that block comes after the write. -/
theorem C22_flag_written_unmasked :
    flagAccesses true
        (runIteration true (fun _ _ => false) ⟨1, false⟩
          { sampleJoined with sleepMode := SleepMode.SLEEP_RTC_INTERRUPT }
          { sampleEnvWithData with inbox := [⟨0, some sampleRequest⟩] }).2.trace
      = [(.writeAllowReceiving true, true)] ∧
    (runIteration true (fun _ _ => false) ⟨1, false⟩
          { sampleJoined with sleepMode := SleepMode.SLEEP_RTC_INTERRUPT }
          { sampleEnvWithData with inbox := [⟨0, some sampleRequest⟩] }).2.trace
      = [.sleepForMillis 845, .onRecvRequest,
         .send (mkMessage ⟨0x01, 0x02⟩ ⟨0x81, 0x00⟩ (.nodeReply 1 2 [0x17, 0x2A])) ⟨0x81, 0x00⟩,
         .writeAllowReceiving true, .rtcAlarm, .rtcSquareWaveNone, .rtcSetAlarmMinutes 30,
         .noInterrupts, .attachInterrupt] ∧
    (runIteration true (fun _ _ => false) ⟨0, false⟩
          { sampleJoined with sleepMode := SleepMode.SLEEP_RTC_INTERRUPT,
                              firstGatewayContact := true, nextGatewayReqTime := 3600,
                              receivingPeriod := 30 }
          { sampleEnv with allowReceiving := false }).2.trace
      = [.noInterrupts, .checkAllowReceiving false, .interrupts, .enterSleepMode, .rtcAlarm,
         .rtcSetAlarmDate 3597, .noInterrupts, .attachInterrupt, .interrupts, .sleepCpu,
         .rtcAlarm, .writeAllowReceiving true, .sleepForMillis 50, .enterTransMode,
         .rtcSetAlarmDate 30, .attachInterrupt] ∧
    flagAccesses true
        (runIteration true (fun _ _ => false) ⟨0, false⟩
          { sampleJoined with sleepMode := SleepMode.SLEEP_RTC_INTERRUPT,
                              firstGatewayContact := true, nextGatewayReqTime := 3600,
                              receivingPeriod := 30 }
          { sampleEnv with allowReceiving := false }).2.trace
      = [(.checkAllowReceiving false, false), (.writeAllowReceiving true, true)] ∧
    ¬ (∀ a ∈ flagAccesses true
        (runIteration true (fun _ _ => false) ⟨1, false⟩
          { sampleJoined with sleepMode := SleepMode.SLEEP_RTC_INTERRUPT }
          { sampleEnvWithData with inbox := [⟨0, some sampleRequest⟩] }).2.trace,
        a.2 = false) := by
  decide

/-- The accesses to `allowReceiving` in an iteration of the run loop, with the
interrupt mask as explicit state. In the sleep phase, when it is entered (EByte
device, not a gateway, a sleep mode, nothing to read), the flag is checked once,
after `noInterrupts()`, with interrupts disabled; on the RTC branch the flag is
written after the wake-up when it is still false, after `interrupts()`, with
interrupts enabled; the sleep phase ends with interrupts enabled. Afterwards the
only access is the write of the first gateway contact in the RTC mode, made with the
mask as the sleep phase left it: the `noInterrupts()` of that block follows the
write. -/
theorem runIteration_flag_accesses (ebyte : Bool) (exceeds : Nat → Nat → Bool) (inp : LoopInput)
    (fe : ForwardEngine) (env : Env) :
    ∃ out1 out2,
      (runIteration ebyte exceeds inp fe env).2.trace = env.trace ++ (out1 ++ out2) ∧
      (sleepPhase ebyte inp.available inp.rtcFired fe env).trace = env.trace ++ out1 ∧
      flagAccesses env.interruptsEnabled out1
        = (if (ebyte = true ∧ isGateway fe.myAddr = false) ∧
              (fe.sleepMode = SleepMode.SLEEP_TRANSCEIVER_INTERRUPT ∨
                fe.sleepMode = SleepMode.SLEEP_RTC_INTERRUPT) ∧ inp.available < 1 then
            (.checkAllowReceiving env.allowReceiving, false) ::
              (if env.allowReceiving = false ∧ inp.rtcFired = false then
                [(.writeAllowReceiving true, true)] else [])
          else []) ∧
      maskAfter env.interruptsEnabled out1
        = (if (ebyte = true ∧ isGateway fe.myAddr = false) ∧
              (fe.sleepMode = SleepMode.SLEEP_TRANSCEIVER_INTERRUPT ∨
                fe.sleepMode = SleepMode.SLEEP_RTC_INTERRUPT) ∧ inp.available < 1 then true
          else env.interruptsEnabled) ∧
      (∀ e, flagAccesses e out2 = [] ∨
        (fe.sleepMode = SleepMode.SLEEP_RTC_INTERRUPT ∧ fe.firstGatewayContact = false ∧
          isGateway fe.myAddr = false ∧
          flagAccesses e out2 = [(.writeAllowReceiving true, e)])) ∧
      flagAccesses env.interruptsEnabled (out1 ++ out2)
        = flagAccesses env.interruptsEnabled out1
          ++ flagAccesses (maskAfter env.interruptsEnabled out1) out2 := by
  obtain ⟨out1, h1, h2, h3⟩ := sleepPhase_accesses ebyte inp.available inp.rtcFired fe env
  have hh : ∃ out,
      (match receiveMessage (sleepPhase ebyte inp.available inp.rtcFired fe env)
          RECEIVE_TIMEOUT with
        | (none, env1) => (fe, env1)
        | (some msg, env1) => handleMessage fe env1 msg).2.trace
        = (sleepPhase ebyte inp.available inp.rtcFired fe env).trace ++ out ∧
      ∀ e, flagAccesses e out = [] ∨
        (fe.sleepMode = SleepMode.SLEEP_RTC_INTERRUPT ∧ fe.firstGatewayContact = false ∧
          isGateway fe.myAddr = false ∧
          flagAccesses e out = [(.writeAllowReceiving true, e)]) := by
    have ht := (receiveMessage_trace (sleepPhase ebyte inp.available inp.rtcFired fe env)
      RECEIVE_TIMEOUT).1
    rcases hr : receiveMessage (sleepPhase ebyte inp.available inp.rtcFired fe env)
      RECEIVE_TIMEOUT with ⟨o, env1⟩
    rw [hr] at ht
    cases o with
    | none => exact ⟨[], by simpa using ht, fun _ => Or.inl rfl⟩
    | some msg =>
      obtain ⟨out, g1, g2⟩ := handleMessage_accesses fe env1 msg
      exact ⟨out, by rw [g1]; simp at ht; rw [ht], g2⟩
  obtain ⟨out2, g1, g2⟩ := hh
  obtain ⟨out3, k1, k2⟩ := runIteration_tail ebyte exceeds inp fe env
  refine ⟨out1, out2 ++ out3, ?_, h1, h2, h3, ?_, flagAccesses_append _ _ _⟩
  · rw [k1, g1, h1]
    simp only [List.append_assoc]
  · intro e
    rw [flagAccesses_append, k2, List.append_nil]
    exact g2 e

/-- C16 at a gateway with eleven children on a board with 16-bit `int`: 60000 ms after
its last request the gateway 0x81,0x00 (interval 60000) increments the sequence
number, sets lastReqTime to now and broadcasts the request, but with the child
budget 60000 and not the capped product `min (11 * 3000) 60000 = 33000`: the `int`
product `numChildren * MAX_BACKOFF_TIME_FOR_ONE_CHILD` has wrapped. One millisecond
earlier nothing is sent. -/
theorem C16_gateway_budget_wraps :
    isGateway sampleBusyGateway.myAddr = true ∧ sampleBusyGateway.numChildren = 11 ∧
    sampleEnv.intBits = 16 ∧
    gatewayTick sampleBusyGateway { sampleEnv with now := 60000 }
      = ({ sampleBusyGateway with seqNum := 1, lastReqTime := 60000 },
         { sampleEnv with
           now := 60000,
           trace := [.send (mkMessage ⟨0x81, 0x00⟩ BROADCAST_ADDR (.gatewayRequest 1 60000 60000))
                      BROADCAST_ADDR] }) ∧
    gatewayTick sampleBusyGateway { sampleEnv with now := 59999 }
      = (sampleBusyGateway, { sampleEnv with now := 59999 }) ∧
    min (11 * 3000) 60000 = 33000 := by
  decide

end CottonCandy
